import Mathlib

/-!
A shallow embedding of `pkg/cli/setup.go` from the `ovm` repository, and
proofs about the bootstrap/context-initialization pipeline it implements
(`PreSetup` / `Setup` and their sub-steps `basic`, `logPath`, `socketPath`,
`ssh`, `sshPort`, `target`).

Filesystem effects and external capabilities (key generation, port probing,
sparse allocation, target reconciliation) are modelled by an explicit state
(`FS`, `St`) threaded through the step functions, together with an `Oracles`
record supplying the outcomes of the fallible primitives.  The concurrent
`errgroup` phases are embedded sequentially in `g.Go` registration order:
every sub-step runs to completion (no cancellation, as in the source) and
the phase's result is the first error in that order.
-/

namespace Ovm

/-! ## Go path utilities: `path.Clean`, `path.Join`, `filepath.Base`, `filepath.Abs` -/

/-- Go `path.IsAbs`: a path is absolute when it begins with `/`. -/
def isAbs (s : String) : Bool :=
  match s.data with
  | c :: _ => c = '/'
  | [] => false

/-- Split a character list at a separator character (the splitting
underlying Go `strings.Split(s, "/")`). -/
def splitCharAux (sep : Char) : List Char → List Char → List (List Char)
  | cur, [] => [cur.reverse]
  | cur, c :: rest =>
    if c = sep then cur.reverse :: splitCharAux sep [] rest
    else splitCharAux sep (c :: cur) rest

/-- The `/`-separated components of a path. -/
def splitSlash (s : String) : List String :=
  (splitCharAux '/' [] s.data).map String.mk

/-- One pass of the element processing inside Go `path.Clean`, over the
`/`-separated components.  `acc` holds the output elements in reverse. -/
def cleanParts (rooted : Bool) : List String → List String → List String
  | acc, [] => acc.reverse
  | acc, p :: rest =>
    if p = "" ∨ p = "." then cleanParts rooted acc rest
    else if p = ".." then
      match acc with
      | [] => if rooted then cleanParts rooted [] rest else cleanParts rooted [".."] rest
      | ".." :: _ => cleanParts rooted (".." :: acc) rest
      | _ :: accTail => cleanParts rooted accTail rest
    else cleanParts rooted (p :: acc) rest

/-- Go `path.Clean`: the shortest lexically-equivalent path. -/
def clean (s : String) : String :=
  if s = "" then "."
  else
    let rooted := isAbs s
    let parts := cleanParts rooted [] (splitSlash s)
    if parts = [] then (if rooted then "/" else ".")
    else (if rooted then "/" else "") ++ "/".intercalate parts

/-- Go `path.Join` restricted to two elements: join with `/` and `Clean`,
skipping empty elements from the front. -/
def pathJoin (a b : String) : String :=
  if a ≠ "" then clean (a ++ "/" ++ b)
  else if b ≠ "" then clean b
  else ""

/-- Go `filepath.Base` (Unix separator): last element of the path after
trailing slashes are removed; `"."` for the empty path, `"/"` for all-slash
paths. -/
def base (s : String) : String :=
  if s = "" then "."
  else
    let s := String.mk (s.data.reverse.dropWhile (fun c => c = '/')).reverse
    let last := (splitSlash s).getLastD ""
    if last = "" then "/" else last

/-! ## `crypto/md5` and `encoding/hex`

32-bit machine arithmetic is carried out on `Nat` with explicit reduction
modulo `2^32`. -/

/-- Reduce modulo `2^32`. -/
def m32 (x : Nat) : Nat := x % 4294967296

/-- Bitwise complement on 32-bit values. -/
def not32 (x : Nat) : Nat := x ^^^ 4294967295

/-- 32-bit left rotation. -/
def rotl32 (x s : Nat) : Nat := m32 ((x <<< s) ||| (x >>> (32 - s)))

/-- The 64 MD5 sine-derived constants. -/
def md5K : List Nat :=
  [0xd76aa478, 0xe8c7b756, 0x242070db, 0xc1bdceee,
   0xf57c0faf, 0x4787c62a, 0xa8304613, 0xfd469501,
   0x698098d8, 0x8b44f7af, 0xffff5bb1, 0x895cd7be,
   0x6b901122, 0xfd987193, 0xa679438e, 0x49b40821,
   0xf61e2562, 0xc040b340, 0x265e5a51, 0xe9b6c7aa,
   0xd62f105d, 0x02441453, 0xd8a1e681, 0xe7d3fbc8,
   0x21e1cde6, 0xc33707d6, 0xf4d50d87, 0x455a14ed,
   0xa9e3e905, 0xfcefa3f8, 0x676f02d9, 0x8d2a4c8a,
   0xfffa3942, 0x8771f681, 0x6d9d6122, 0xfde5380c,
   0xa4beea44, 0x4bdecfa9, 0xf6bb4b60, 0xbebfbc70,
   0x289b7ec6, 0xeaa127fa, 0xd4ef3085, 0x04881d05,
   0xd9d4d039, 0xe6db99e5, 0x1fa27cf8, 0xc4ac5665,
   0xf4292244, 0x432aff97, 0xab9423a7, 0xfc93a039,
   0x655b59c3, 0x8f0ccc92, 0xffeff47d, 0x85845dd1,
   0x6fa87e4f, 0xfe2ce6e0, 0xa3014314, 0x4e0811a1,
   0xf7537e82, 0xbd3af235, 0x2ad7d2bb, 0xeb86d391]

/-- The 64 MD5 per-round shift amounts. -/
def md5S : List Nat :=
  [7, 12, 17, 22, 7, 12, 17, 22, 7, 12, 17, 22, 7, 12, 17, 22,
   5, 9, 14, 20, 5, 9, 14, 20, 5, 9, 14, 20, 5, 9, 14, 20,
   4, 11, 16, 23, 4, 11, 16, 23, 4, 11, 16, 23, 4, 11, 16, 23,
   6, 10, 15, 21, 6, 10, 15, 21, 6, 10, 15, 21, 6, 10, 15, 21]

/-- One of the 64 MD5 operations: `M` is the 16-word message block,
`st = (A, B, C, D)` the running state and `i` the operation index. -/
def md5Round (M : List Nat) (st : Nat × Nat × Nat × Nat) (i : Nat) :
    Nat × Nat × Nat × Nat :=
  let (A, B, C, D) := st
  let Fg : Nat × Nat :=
    if i < 16 then ((B &&& C) ||| (not32 B &&& D), i)
    else if i < 32 then ((D &&& B) ||| (not32 D &&& C), (5 * i + 1) % 16)
    else if i < 48 then (B ^^^ C ^^^ D, (3 * i + 5) % 16)
    else (C ^^^ (B ||| not32 D), (7 * i) % 16)
  let F := m32 (Fg.1 + A + md5K.getD i 0 + M.getD Fg.2 0)
  (D, m32 (B + rotl32 F (md5S.getD i 0)), B, C)

/-- Process one 64-byte block (given as 16 little-endian words). -/
def md5Block (st0 : Nat × Nat × Nat × Nat) (M : List Nat) :
    Nat × Nat × Nat × Nat :=
  let r := (List.range 64).foldl (md5Round M) st0
  (m32 (st0.1 + r.1), m32 (st0.2.1 + r.2.1), m32 (st0.2.2.1 + r.2.2.1),
   m32 (st0.2.2.2 + r.2.2.2))

/-- Group a byte list into 32-bit little-endian words. -/
def toWordsLE : List Nat → List Nat
  | b0 :: b1 :: b2 :: b3 :: rest =>
    (b0 + b1 * 256 + b2 * 65536 + b3 * 16777216) :: toWordsLE rest
  | _ => []

/-- The four little-endian bytes of a 32-bit word. -/
def le4 (x : Nat) : List Nat :=
  [x % 256, x / 256 % 256, x / 65536 % 256, x / 16777216 % 256]

/-- The eight little-endian bytes of a 64-bit value. -/
def le8 (x : Nat) : List Nat := le4 (x % 4294967296) ++ le4 (x / 4294967296)

/-- MD5 padding: a `0x80` byte, zeros up to 56 mod 64, then the bit length
as a little-endian 64-bit value. -/
def padMsg (m : List Nat) : List Nat :=
  let l := m.length
  let k := (119 - l % 64) % 64
  m ++ [0x80] ++ List.replicate k 0 ++ le8 ((l * 8) % 18446744073709551616)

/-- Split a byte list into successive 64-byte chunks (structural recursion
on a fuel bounded by the list length). -/
def chunks64Aux : Nat → List Nat → List (List Nat)
  | 0, _ => []
  | _ + 1, [] => []
  | fuel + 1, x :: xs =>
    ((x :: xs).take 64) :: chunks64Aux fuel ((x :: xs).drop 64)

/-- Split a byte list into successive 64-byte chunks. -/
def chunks64 (xs : List Nat) : List (List Nat) := chunks64Aux xs.length xs

/-- `md5.Sum`: the 16-byte MD5 digest of a byte list. -/
def md5Bytes (m : List Nat) : List Nat :=
  let st := (chunks64 (padMsg m)).foldl
    (fun st ch => md5Block st (toWordsLE ch))
    (0x67452301, 0xefcdab89, 0x98badcfe, 0x10325476)
  le4 st.1 ++ le4 st.2.1 ++ le4 st.2.2.1 ++ le4 st.2.2.2

/-- Lowercase hexadecimal digit. -/
def hexDigit (n : Nat) : Char :=
  if n < 10 then Char.ofNat (48 + n) else Char.ofNat (87 + n)

/-- `hex.EncodeToString`: two lowercase hex digits per byte. -/
def hexEncode (bs : List Nat) : String :=
  String.mk (bs.flatMap (fun b => [hexDigit (b / 16 % 16), hexDigit (b % 16)]))

/-- UTF-8 encoding of one character, as Go `[]byte(string)` produces. -/
def utf8Char (c : Char) : List Nat :=
  let n := c.toNat
  if n < 128 then [n]
  else if n < 2048 then [192 ||| (n >>> 6), 128 ||| (n &&& 63)]
  else if n < 65536 then
    [224 ||| (n >>> 12), 128 ||| ((n >>> 6) &&& 63), 128 ||| (n &&& 63)]
  else
    [240 ||| (n >>> 18), 128 ||| ((n >>> 12) &&& 63),
     128 ||| ((n >>> 6) &&& 63), 128 ||| (n &&& 63)]

/-- Go `[]byte(s)`: the UTF-8 bytes of a string. -/
def strBytes (s : String) : List Nat := s.data.flatMap utf8Char

/-- `hex.EncodeToString(md5.Sum([]byte(s))[:])`. -/
def md5HexOfString (s : String) : String := hexEncode (md5Bytes (strBytes s))

/-- A Go `error` value.  `wrapped` is `fmt.Errorf("...: %w", e)`,
`notExist` the not-exists error from `os.Stat`/`os.Open`. -/
inductive GoError where
  | io (msg : String)
  | notExist (p : String)
  | wrapped (msg : String) (e : GoError)
deriving DecidableEq, Repr

/-- Go `filepath.Abs`: `Clean` for an already-absolute path, otherwise the
working directory (which may be unavailable) joined with the path. -/
def goAbs (getwd : Except GoError String) (p : String) : Except GoError String :=
  if isAbs p then .ok (clean p)
  else
    match getwd with
    | .error e => .error e
    | .ok wd => .ok (pathJoin wd p)

/-- ASCII lower-casing of one character (Go `strings.ToLower`, restricted
to the ASCII paths this pipeline handles). -/
def charLower (c : Char) : Char :=
  if 65 ≤ c.toNat ∧ c.toNat ≤ 90 then Char.ofNat (c.toNat + 32) else c

/-- Go `strings.ToLower` (ASCII). -/
def goToLower (s : String) : String := String.mk (s.data.map charLower)

/-- Go `strings.TrimSpace` over ASCII whitespace. -/
def isSpaceChar (c : Char) : Bool :=
  c = ' ' ∨ c = '\t' ∨ c = '\n' ∨ c = '\x0b' ∨ c = '\x0c' ∨ c = '\r'

/-- Go `strings.TrimSpace`: drop leading and trailing whitespace. -/
def trimSpace (s : String) : String :=
  String.mk (((s.data.dropWhile isSpaceChar).reverse.dropWhile isSpaceChar).reverse)

/-! ## The effect model

The filesystem is a set of existing directories plus a map from file paths
to contents.  Every side-effecting primitive the source calls is recorded
as an `Event`, and the fallible ones consult an `Oracles` record for their
outcome, so that a run of the pipeline is a deterministic function of the
flags, the oracles, the starting `Context` and the starting state. -/

/-- A side-effecting call made by the pipeline. -/
inductive Event where
  | mkdirAll (p : String)
  | removeAll (p : String)
  | genSSHKey (dir nm : String)
  | createSparse (p : String) (size : Nat)
deriving DecidableEq, Repr

/-- The modelled filesystem. -/
structure FS where
  dirs : List String
  files : List (String × String)
deriving DecidableEq, Repr

/-- `q` lies at or below `root`. -/
def isUnder (root q : String) : Bool :=
  q = root || (root ++ "/").data.isPrefixOf q.data

/-- A path exists (as a directory or a file). -/
def FS.existsPath (fs : FS) (p : String) : Bool :=
  fs.dirs.contains p || fs.files.any (fun f => f.1 = p)

/-- The contents of the file at `p`, when one exists. -/
def FS.fileContent (fs : FS) (p : String) : Option String :=
  (fs.files.find? (fun f => f.1 = p)).map (fun f => f.2)

/-- Create or overwrite the file at `p`. -/
def FS.setFile (fs : FS) (p v : String) : FS :=
  { fs with files := (p, v) :: fs.files.filter (fun f => ¬ f.1 = p) }

/-- Add a directory. -/
def FS.addDir (fs : FS) (p : String) : FS :=
  if fs.dirs.contains p then fs else { fs with dirs := p :: fs.dirs }

/-- Remove `p` and everything below it. -/
def FS.removeTree (fs : FS) (p : String) : FS :=
  { dirs := fs.dirs.filter (fun d => ¬ isUnder p d),
    files := fs.files.filter (fun f => ¬ isUnder p f.1) }

/-- Mutable run state: the filesystem and the log of effecting calls. -/
structure St where
  fs : FS
  events : List Event
deriving DecidableEq, Repr

/-- Outcomes of the fallible primitives and of the delegated external
capabilities.  `mkdirAllErr`, `removeAllErr`, `createSparseErr` and
`readErr` inject failures of the corresponding calls (`none` = success);
`statErr` injects a stat failure on an accessible path (for example
`EACCES`), on top of the not-exists failure derived from the filesystem.
`genSSHKey` is the key-generation capability (on success, the contents of
the fresh private/public pair), `findUsablePort` the port probe, and
`newTargetRes`/`handleRes` the manifest reconciliation engine. -/
structure Oracles where
  getwd : Except GoError String
  executable : Except GoError String
  evalSymlinks : String → Except GoError String
  mkdirAllErr : String → Option GoError
  removeAllErr : String → Option GoError
  statErr : String → Option GoError
  readErr : String → Option GoError
  genSSHKey : Except GoError (String × String)
  findUsablePort : Nat → Except GoError Nat
  newTargetRes : Except GoError Unit
  handleRes : Except GoError Unit
  createSparseErr : String → Option GoError

/-- Modelled from the spec: the package-level CLI-flag variables read by
the provisioning functions (`name`, `cpus`, `memory`, `cliMode`,
`bindPID`, `eventSocketPath`, `powerSaveMode`, `kernelDebug`,
`socketPath`, `sshKeyPath`, `logPath`, `targetPath`, `kernelPath`,
`initrdPath`, `rootfsPath`), whose declarations live outside the provided
source file.  `memory` is the configured memory in MiB as a `uint64`
(`MemoryBytes` is a `uint64` field assigned `memory * 1024 * 1024`);
`cpus` is a `uint`. -/
structure Flags where
  name : String
  cpus : Nat
  memory : Nat
  cliMode : Bool
  bindPID : Int
  eventSocketPath : String
  powerSaveMode : Bool
  kernelDebug : Bool
  socketPath : String
  sshKeyPath : String
  logPath : String
  targetPath : String
  kernelPath : String
  initrdPath : String
  rootfsPath : String

/-- The `Context` struct of `setup.go`: the configuration snapshot.
`Init()` returns the zero value. -/
structure Context where
  Name : String := ""
  VersionsPath : String := ""
  LogPath : String := ""
  SocketPath : String := ""
  IsCliMode : Bool := false
  LockFile : String := ""
  ExecutablePath : String := ""
  BindPID : Int := 0
  EventSocketPath : String := ""
  PowerSaveMode : Bool := false
  KernelDebug : Bool := false
  Endpoint : String := ""
  SSHPort : Nat := 0
  SSHKeyPath : String := ""
  SSHPrivateKeyPath : String := ""
  SSHPublicKeyPath : String := ""
  SSHPublicKey : String := ""
  ForwardSocketPath : String := ""
  SocketNetworkPath : String := ""
  SocketInitrdVSockPath : String := ""
  SocketReadyPath : String := ""
  RestfulSocketPath : String := ""
  TimeSyncSocketPath : String := ""
  SSHAuthSocketPath : String := ""
  CPUS : Nat := 0
  MemoryBytes : Nat := 0
  KernelPath : String := ""
  InitrdPath : String := ""
  RootfsPath : String := ""
  TargetPath : String := ""
  DiskDataPath : String := ""
  DiskTmpPath : String := ""
deriving DecidableEq, Repr

/-- The result of running one sub-step (or one phase): the returned Go
error (`none` = `nil`), the updated `Context` and the updated state. -/
structure Step where
  res : Option GoError
  ctx : Context
  st : St
deriving DecidableEq, Repr

/-- `os.MkdirAll`: records the attempt; on success the directory exists. -/
def mkdirAll (o : Oracles) (p : String) (st : St) : Option GoError × St :=
  let st := { st with events := st.events ++ [Event.mkdirAll p] }
  match o.mkdirAllErr p with
  | some e => (some e, st)
  | none => (none, { st with fs := st.fs.addDir p })

/-- `os.RemoveAll`: records the attempt; on success the whole tree at `p`
is gone. -/
def removeAll (o : Oracles) (p : String) (st : St) : Option GoError × St :=
  let st := { st with events := st.events ++ [Event.removeAll p] }
  match o.removeAllErr p with
  | some e => (some e, st)
  | none => (none, { st with fs := st.fs.removeTree p })

/-- `os.Stat`: fails with the injected error on an inaccessible path, with
not-exists on a missing path, succeeds otherwise. -/
def statPath (o : Oracles) (p : String) (fs : FS) : Option GoError :=
  match o.statErr p with
  | some e => some e
  | none => if fs.existsPath p then none else some (GoError.notExist p)

/-- Modelled from the spec: `utils.GenerateSSHKey(dir, name)` (source not
in the provided file) writes a private/public key pair at the
deterministic sibling paths `dir/name` and `dir/name.pub`. -/
def generateSSHKey (o : Oracles) (dir nm : String) (st : St) :
    Option GoError × St :=
  let st := { st with events := st.events ++ [Event.genSSHKey dir nm] }
  match o.genSSHKey with
  | .error e => (some e, st)
  | .ok pair =>
    let fs := (st.fs.setFile (pathJoin dir nm) pair.1).setFile
      (pathJoin dir (nm ++ ".pub")) pair.2
    (none, { st with fs := fs })

/-- Modelled from the spec: `utils.CreateSparseFile(path, size)` (source
not in the provided file) requests sparse allocation of exactly `size`
bytes at `path`. -/
def createSparseFile (o : Oracles) (p : String) (size : Nat) (st : St) :
    Option GoError × St :=
  let st := { st with events := st.events ++ [Event.createSparse p size] }
  match o.createSparseErr p with
  | some e => (some e, st)
  | none => (none, { st with fs := st.fs.setFile p "" })

/-! ## The sub-steps of `PreSetup` and `Setup` -/

/-- The first non-`nil` of two Go error results. -/
def firstErr (a b : Option GoError) : Option GoError :=
  match a with
  | some e => some e
  | none => b

/-- `(c *Context) basic()` (setup.go lines 82-112): copy the flag-derived
fields, ensure `/tmp/ovm`, resolve and lower-case the executable path and
derive `LockFile` from its MD5 digest. -/
def basic (fl : Flags) (o : Oracles) (c : Context) (st : St) : Step :=
  let c := { c with
    Name := fl.name, CPUS := fl.cpus,
    MemoryBytes := (fl.memory * 1024 * 1024) % 18446744073709551616,
    IsCliMode := fl.cliMode, BindPID := fl.bindPID,
    EventSocketPath := fl.eventSocketPath,
    PowerSaveMode := fl.powerSaveMode, KernelDebug := fl.kernelDebug }
  match mkdirAll o "/tmp/ovm" st with
  | (some e, st) => ⟨some e, c, st⟩
  | (none, st) =>
    match o.executable with
    | .error e => ⟨some (.wrapped "get executable path error" e), c, st⟩
    | .ok p0 =>
      match o.evalSymlinks p0 with
      | .error e => ⟨some (.wrapped "eval symlink error" e), c, st⟩
      | .ok p =>
        let c := { c with ExecutablePath := goToLower p }
        let c := { c with LockFile :=
          "/tmp/ovm/" ++ md5HexOfString c.ExecutablePath ++ "-" ++ fl.name ++ ".pid" }
        ⟨none, c, st⟩

/-- `(c *Context) logPath()` (lines 204-213): absolutize the log directory
flag and create the directory. -/
def logPath (fl : Flags) (o : Oracles) (c : Context) (st : St) : Step :=
  match goAbs o.getwd fl.logPath with
  | .error e => ⟨some e, c, st⟩
  | .ok p =>
    let c := { c with LogPath := p }
    match mkdirAll o c.LogPath st with
    | (some e, st) => ⟨some e, c, st⟩
    | (none, st) => ⟨none, c, st⟩

/-- `(c *Context) socketPath()` (lines 114-140): absolutize the socket
directory, derive the seven socket paths and the endpoint, then reset the
directory (recursive removal followed by re-creation). -/
def socketPath (fl : Flags) (o : Oracles) (c : Context) (st : St) : Step :=
  match goAbs o.getwd fl.socketPath with
  | .error e => ⟨some e, c, st⟩
  | .ok p =>
    let c := { c with
      SocketPath := p,
      ForwardSocketPath := pathJoin p (fl.name ++ "-podman.sock"),
      SocketNetworkPath := pathJoin p (fl.name ++ "-vfkit-network.sock"),
      SocketInitrdVSockPath := pathJoin p (fl.name ++ "-initrd-vsock.sock"),
      SocketReadyPath := pathJoin p (fl.name ++ "-ready.sock"),
      RestfulSocketPath := pathJoin p (fl.name ++ "-restful.sock"),
      TimeSyncSocketPath := pathJoin p (fl.name ++ "-sync-time.sock"),
      SSHAuthSocketPath := pathJoin p (fl.name ++ "-ssh-auth.sock") }
    let c := { c with Endpoint := "unix://" ++ c.SocketNetworkPath }
    match removeAll o c.SocketPath st with
    | (some e, st) => ⟨some e, c, st⟩
    | (none, st) =>
      match mkdirAll o c.SocketPath st with
      | (some e, st) => ⟨some e, c, st⟩
      | (none, st) => ⟨none, c, st⟩

/-- `(c *Context) ssh()` (lines 142-191): derive the key paths, create the
SSH directory, stat both halves of the keypair (a nested errgroup whose
result is non-`nil` iff either stat fails), regenerate on any stat
failure (best-effort removal of both files, errors discarded, then the
key-generation capability), finally read and trim the public key. -/
def ssh (fl : Flags) (o : Oracles) (c : Context) (st : St) : Step :=
  match goAbs o.getwd fl.sshKeyPath with
  | .error e => ⟨some e, c, st⟩
  | .ok p =>
    let c := { c with
      SSHKeyPath := p,
      SSHPrivateKeyPath := pathJoin p fl.name,
      SSHPublicKeyPath := pathJoin p (fl.name ++ ".pub") }
    match mkdirAll o p st with
    | (some e, st) => ⟨some e, c, st⟩
    | (none, st) =>
      let statsErr := firstErr (statPath o c.SSHPrivateKeyPath st.fs)
        (statPath o c.SSHPublicKeyPath st.fs)
      let regen : Option GoError × St :=
        match statsErr with
        | some _ =>
          let r1 := removeAll o c.SSHPrivateKeyPath st
          let r2 := removeAll o c.SSHPublicKeyPath r1.2
          generateSSHKey o c.SSHKeyPath fl.name r2.2
        | none => (none, st)
      match regen with
      | (some e, st) => ⟨some e, c, st⟩
      | (none, st) =>
        if st.fs.existsPath c.SSHPublicKeyPath then
          match o.readErr c.SSHPublicKeyPath with
          | some e => ⟨some e, c, st⟩
          | none =>
            let b := (st.fs.fileContent c.SSHPublicKeyPath).getD ""
            ⟨none, { c with SSHPublicKey := trimSpace b }, st⟩
        else ⟨some (.notExist c.SSHPublicKeyPath), c, st⟩

/-- `(c *Context) sshPort()` (lines 193-202): delegate to
`utils.FindUsablePort(2233)`. -/
def sshPort (_fl : Flags) (o : Oracles) (c : Context) (st : St) : Step :=
  match o.findUsablePort 2233 with
  | .error e => ⟨some e, c, st⟩
  | .ok port => ⟨none, { c with SSHPort := port }, st⟩

/-- `(c *Context) target()` (lines 215-249): absolutize and create the
target directory, derive the asset paths, run the external reconciliation
engine (`newTarget` / `handle`), then ensure the scratch disk: when the
stat of `DiskTmpPath` fails, request sparse allocation of `1 TiB`. -/
def target (fl : Flags) (o : Oracles) (c : Context) (st : St) : Step :=
  match goAbs o.getwd fl.targetPath with
  | .error e => ⟨some e, c, st⟩
  | .ok p =>
    let c := { c with TargetPath := p }
    match mkdirAll o c.TargetPath st with
    | (some e, st) => ⟨some e, c, st⟩
    | (none, st) =>
      let c := { c with
        VersionsPath := pathJoin c.TargetPath "versions.json",
        KernelPath := pathJoin c.TargetPath (base fl.kernelPath),
        InitrdPath := pathJoin c.TargetPath (base fl.initrdPath),
        RootfsPath := pathJoin c.TargetPath (base fl.rootfsPath),
        DiskDataPath := pathJoin c.TargetPath "data.img",
        DiskTmpPath := pathJoin c.TargetPath "tmp.img" }
      match o.newTargetRes with
      | .error e => ⟨some e, c, st⟩
      | .ok _ =>
        match o.handleRes with
        | .error e => ⟨some e, c, st⟩
        | .ok _ =>
          match statPath o c.DiskTmpPath st.fs with
          | none => ⟨none, c, st⟩
          | some _ =>
            match createSparseFile o c.DiskTmpPath 1099511627776 st with
            | (some e, st) => ⟨some e, c, st⟩
            | (none, st) => ⟨none, c, st⟩

/-! ## The two phases

The `errgroup` phases are embedded in `g.Go` registration order: every
sub-step runs (no cancellation) and the phase returns the first error in
that order. -/

/-- `(c *Context) PreSetup()` (lines 62-69): `basic` and `logPath`. -/
def preSetup (fl : Flags) (o : Oracles) (c : Context) (st : St) : Step :=
  let s1 := basic fl o c st
  let s2 := logPath fl o s1.ctx s1.st
  ⟨firstErr s1.res s2.res, s2.ctx, s2.st⟩

/-- `(c *Context) Setup()` (lines 71-80): `socketPath`, `ssh`, `sshPort`
and `target`. -/
def setup (fl : Flags) (o : Oracles) (c : Context) (st : St) : Step :=
  let s1 := socketPath fl o c st
  let s2 := ssh fl o s1.ctx s1.st
  let s3 := sshPort fl o s2.ctx s2.st
  let s4 := target fl o s3.ctx s3.st
  ⟨firstErr s1.res (firstErr s2.res (firstErr s3.res s4.res)), s4.ctx, s4.st⟩

/-- A full run: `Init()`, `PreSetup()`, then `Setup()`, from a given
filesystem. -/
def runPipeline (fl : Flags) (o : Oracles) (fs0 : FS) : Step × Step :=
  let s1 := preSetup fl o {} ⟨fs0, []⟩
  let s2 := setup fl o s1.ctx s1.st
  (s1, s2)

/-! ## Shared concrete fixtures for witnesses -/

/-- A concrete flag assignment used by witness theorems. -/
def wFlags : Flags :=
  ⟨"ovm", 4, 2048, true, 0, "event.sock", false, false, "/run/sock",
   "/home/u/.ovm/ssh", "/var/log/ovm", "/opt/ovm", "/src/bzImage",
   "/src/initrd.img", "/src/rootfs.img"⟩

/-- A concrete all-succeeding oracle assignment used by witness theorems. -/
def wOracles : Oracles :=
  ⟨.ok "/cwd", .ok "/usr/bin/OVM", fun p => .ok p, fun _ => none,
   fun _ => none, fun _ => none, fun _ => none,
   .ok ("PRIVKEY", " ssh-ed25519 AAAA ovm \n"), fun _ => .ok 2233,
   .ok (), .ok (), fun _ => none⟩

/-- An empty starting state. -/
def wSt : St := ⟨⟨[], []⟩, []⟩

/-- The read-out phase at the end of `ssh()` (open the public key file,
read it, trim whitespace), factored out for the proofs below. -/
def sshReadPhase (o : Oracles) (c : Context) (pub : String) (st2 : St) : Step :=
  if st2.fs.existsPath pub then
    match o.readErr pub with
    | some e => ⟨some e, c, st2⟩
    | none =>
      ⟨none, { c with SSHPublicKey := trimSpace ((st2.fs.fileContent pub).getD "") }, st2⟩
  else ⟨some (.notExist pub), c, st2⟩

/-- An oracle assignment where the stat of the scratch-disk path fails
with a permission error even though the file exists. -/
def cexStatOracles : Oracles :=
  { wOracles with
    statErr := fun q =>
      if q = "/opt/ovm/tmp.img" then some (GoError.io "permission denied")
      else none }

/-- The all-success oracles with removal and `/tmp/ovm` creation failing. -/
def cexFailOracles : Oracles :=
  { wOracles with
    removeAllErr := fun _ => some (GoError.io "removal failed"),
    mkdirAllErr := fun q =>
      if q = "/tmp/ovm" then some (GoError.io "mkdir failed") else none }

/-- An oracle assignment whose resolved executable path differs from
`wOracles` only in letter case. -/
def cexLowerOracles : Oracles :=
  { wOracles with
    executable := .ok "/usr/bin/ovm",
    evalSymlinks := fun p => .ok p }

/-! ## Absoluteness of derived paths -/

lemma isAbs_append_left (a b : String) (h : a ≠ "") :
    isAbs (a ++ b) = isAbs a := by
  cases a with
  | mk l =>
    cases b with
    | mk m =>
      cases l with
      | nil => exact absurd rfl h
      | cons c cs => rfl

lemma isAbs_slash_append (t : String) : isAbs ("/" ++ t) = true := by
  have h : ("/" : String) ≠ "" := by decide
  rw [isAbs_append_left _ _ h]
  rfl

lemma isAbs_clean (s : String) (h : isAbs s = true) : isAbs (clean s) = true := by
  have hne : s ≠ "" := by
    intro he
    rw [he] at h
    simp [isAbs] at h
  unfold clean
  simp only [hne, if_false, h, if_true]
  split
  · rfl
  · exact isAbs_slash_append _

lemma isAbs_pathJoin (a b : String) (h : isAbs a = true) :
    isAbs (pathJoin a b) = true := by
  have hne : a ≠ "" := by
    intro he
    rw [he] at h
    simp [isAbs] at h
  unfold pathJoin
  simp only [ne_eq, hne, not_false_iff, if_true]
  apply isAbs_clean
  rw [String.append_assoc, isAbs_append_left _ _ hne]
  exact h

/-- If the working directory is absolute whenever it is available, then
`filepath.Abs` only ever returns absolute paths. -/
lemma goAbs_isAbs (getwd : Except GoError String) (p q : String)
    (hwd : ∀ wd, getwd = .ok wd → isAbs wd = true)
    (h : goAbs getwd p = .ok q) : isAbs q = true := by
  unfold goAbs at h
  by_cases hp : isAbs p = true
  · simp only [hp, if_true] at h
    cases h
    exact isAbs_clean p hp
  · simp only [hp] at h
    cases hg : getwd with
    | error e => rw [hg] at h; cases h
    | ok wd =>
      rw [hg] at h
      cases h
      exact isAbs_pathJoin _ _ (hwd wd hg)

/-! ## Phase composition -/

lemma firstErr_eq_none (a b : Option GoError) :
    firstErr a b = none ↔ a = none ∧ b = none := by
  cases a <;> simp [firstErr]

/-- **C6.** `PreSetup()` returns nil iff both `basic` and `logPath`
succeed, and `Setup()` returns nil iff `socketPath`, `ssh`, `sshPort` and
`target` all succeed; otherwise the phase returns the first failing
sub-step's error (in the embedded `g.Go` order), with no retry: every
sub-step runs exactly once. -/
theorem preSetup_setup_fail_fast (fl : Flags) (o : Oracles) (c : Context) (st : St) :
    (let s1 := basic fl o c st
     let s2 := logPath fl o s1.ctx s1.st
     (preSetup fl o c st).res = firstErr s1.res s2.res ∧
     ((preSetup fl o c st).res = none ↔ (s1.res = none ∧ s2.res = none))) ∧
    (let t1 := socketPath fl o c st
     let t2 := ssh fl o t1.ctx t1.st
     let t3 := sshPort fl o t2.ctx t2.st
     let t4 := target fl o t3.ctx t3.st
     (setup fl o c st).res = firstErr t1.res (firstErr t2.res (firstErr t3.res t4.res)) ∧
     ((setup fl o c st).res = none ↔
       (t1.res = none ∧ t2.res = none ∧ t3.res = none ∧ t4.res = none))) := by
  refine ⟨⟨rfl, ?_⟩, ⟨rfl, ?_⟩⟩
  · show firstErr _ _ = none ↔ _
    rw [firstErr_eq_none]
  · show firstErr _ (firstErr _ (firstErr _ _)) = none ↔ _
    rw [firstErr_eq_none, firstErr_eq_none, firstErr_eq_none]

/-! ## Memory sizing -/

/-- **C10.** `basic()` computes `MemoryBytes` as the configured memory
value (MiB) times `2^20` in `uint64` arithmetic (wraparound modulo
`2^64`), and for every memory value below `2^44` the result is exact. -/
theorem basic_memoryBytes (fl : Flags) (o : Oracles) (c : Context) (st : St) :
    (basic fl o c st).ctx.MemoryBytes = (fl.memory * 1024 * 1024) % 2 ^ 64 ∧
    (fl.memory < 2 ^ 44 →
      (basic fl o c st).ctx.MemoryBytes = fl.memory * 1024 * 1024) := by
  have key : (basic fl o c st).ctx.MemoryBytes
      = (fl.memory * 1024 * 1024) % 18446744073709551616 := by
    unfold basic
    split
    · rfl
    · split
      · rfl
      · split
        · rfl
        · rfl
  constructor
  · rw [key]; norm_num
  · intro h; rw [key]; omega

/-- **C10 witness.** At memory = 2048 MiB the computed value is exactly
2 GiB. -/
theorem basic_memoryBytes_witness :
    (2048 < 2 ^ 44 ∧ True) ∧
    (basic ⟨"ovm", 4, 2048, true, 0, "e", false, false, "/s", "/k", "/l", "/t",
        "/kern", "/init", "/root"⟩
      ⟨.ok "/", .ok "/bin/ovm", fun p => .ok p, fun _ => none, fun _ => none,
       fun _ => none, fun _ => none, .ok ("a", "b"), fun _ => .ok 2233,
       .ok (), .ok (), fun _ => none⟩
      {} ⟨⟨[], []⟩, []⟩).ctx.MemoryBytes = 2048 * 1024 * 1024 :=
  ⟨⟨by norm_num, trivial⟩,
    (basic_memoryBytes _ _ _ _).2 (by norm_num)⟩



/-! ## Target asset path derivation -/

/-- **C9.** Under a resolvable target directory `p`, `target()` derives
`KernelPath`, `InitrdPath` and `RootfsPath` as the basename of the
corresponding source flag joined under `TargetPath`, and `VersionsPath`,
`DiskDataPath`, `DiskTmpPath` as the fixed names `versions.json`,
`data.img`, `tmp.img` under `TargetPath`; consequently sources sharing a
basename, or a source basename equal to a fixed name, make two distinct
derived fields equal. -/
theorem target_derived_paths (fl : Flags) (o : Oracles) (c : Context) (st : St)
    (p : String) (habs : goAbs o.getwd fl.targetPath = .ok p)
    (hmk : o.mkdirAllErr p = none) :
    ((target fl o c st).ctx.TargetPath = p ∧
     (target fl o c st).ctx.VersionsPath = pathJoin p "versions.json" ∧
     (target fl o c st).ctx.KernelPath = pathJoin p (base fl.kernelPath) ∧
     (target fl o c st).ctx.InitrdPath = pathJoin p (base fl.initrdPath) ∧
     (target fl o c st).ctx.RootfsPath = pathJoin p (base fl.rootfsPath) ∧
     (target fl o c st).ctx.DiskDataPath = pathJoin p "data.img" ∧
     (target fl o c st).ctx.DiskTmpPath = pathJoin p "tmp.img") ∧
    ((base fl.kernelPath = base fl.initrdPath →
       (target fl o c st).ctx.KernelPath = (target fl o c st).ctx.InitrdPath) ∧
     (base fl.kernelPath = base fl.rootfsPath →
       (target fl o c st).ctx.KernelPath = (target fl o c st).ctx.RootfsPath) ∧
     (base fl.initrdPath = base fl.rootfsPath →
       (target fl o c st).ctx.InitrdPath = (target fl o c st).ctx.RootfsPath) ∧
     (base fl.kernelPath = "data.img" →
       (target fl o c st).ctx.KernelPath = (target fl o c st).ctx.DiskDataPath) ∧
     (base fl.kernelPath = "tmp.img" →
       (target fl o c st).ctx.KernelPath = (target fl o c st).ctx.DiskTmpPath) ∧
     (base fl.kernelPath = "versions.json" →
       (target fl o c st).ctx.KernelPath = (target fl o c st).ctx.VersionsPath) ∧
     (base fl.initrdPath = "data.img" →
       (target fl o c st).ctx.InitrdPath = (target fl o c st).ctx.DiskDataPath) ∧
     (base fl.initrdPath = "tmp.img" →
       (target fl o c st).ctx.InitrdPath = (target fl o c st).ctx.DiskTmpPath) ∧
     (base fl.initrdPath = "versions.json" →
       (target fl o c st).ctx.InitrdPath = (target fl o c st).ctx.VersionsPath) ∧
     (base fl.rootfsPath = "data.img" →
       (target fl o c st).ctx.RootfsPath = (target fl o c st).ctx.DiskDataPath) ∧
     (base fl.rootfsPath = "tmp.img" →
       (target fl o c st).ctx.RootfsPath = (target fl o c st).ctx.DiskTmpPath) ∧
     (base fl.rootfsPath = "versions.json" →
       (target fl o c st).ctx.RootfsPath = (target fl o c st).ctx.VersionsPath)) := by
  have key : (target fl o c st).ctx =
      { c with
        TargetPath := p,
        VersionsPath := pathJoin p "versions.json",
        KernelPath := pathJoin p (base fl.kernelPath),
        InitrdPath := pathJoin p (base fl.initrdPath),
        RootfsPath := pathJoin p (base fl.rootfsPath),
        DiskDataPath := pathJoin p "data.img",
        DiskTmpPath := pathJoin p "tmp.img" } := by
    unfold target
    rw [habs]
    dsimp only
    unfold mkdirAll
    rw [hmk]
    dsimp only
    split <;> try rfl
    split <;> try rfl
    split <;> try rfl
    split <;> rfl
  refine ⟨⟨?_, ?_, ?_, ?_, ?_, ?_, ?_⟩, ?_, ?_, ?_, ?_, ?_, ?_, ?_, ?_, ?_, ?_, ?_, ?_⟩
    <;> rw [key] <;> intro h <;> try rw [h]

/-- **C9 witness.** With kernel source `/src/vmlinuz` and initrd source
`/other/vmlinuz` (same basename), the derived canonical kernel and initrd
paths coincide. -/
theorem target_derived_paths_witness :
    (goAbs wOracles.getwd "/opt/ovm" = .ok "/opt/ovm" ∧
     wOracles.mkdirAllErr "/opt/ovm" = none ∧
     base "/src/vmlinuz" = base "/other/vmlinuz") ∧
    (target { wFlags with kernelPath := "/src/vmlinuz", initrdPath := "/other/vmlinuz" }
        wOracles {} wSt).ctx.KernelPath =
      (target { wFlags with kernelPath := "/src/vmlinuz", initrdPath := "/other/vmlinuz" }
        wOracles {} wSt).ctx.InitrdPath :=
  ⟨⟨rfl, rfl, by decide⟩,
    (target_derived_paths
      { wFlags with kernelPath := "/src/vmlinuz", initrdPath := "/other/vmlinuz" }
      wOracles {} wSt "/opt/ovm" rfl rfl).2.1 (by decide)⟩

/-! ## Characterizations of the effect primitives -/

lemma removeAll_ok (o : Oracles) (p : String) (st : St)
    (h : o.removeAllErr p = none) :
    removeAll o p st =
      (none, ⟨st.fs.removeTree p, st.events ++ [Event.removeAll p]⟩) := by
  unfold removeAll; rw [h]

lemma removeAll_err (o : Oracles) (p : String) (st : St) (e : GoError)
    (h : o.removeAllErr p = some e) :
    removeAll o p st = (some e, ⟨st.fs, st.events ++ [Event.removeAll p]⟩) := by
  unfold removeAll; rw [h]

lemma mkdirAll_ok (o : Oracles) (p : String) (st : St)
    (h : o.mkdirAllErr p = none) :
    mkdirAll o p st =
      (none, ⟨st.fs.addDir p, st.events ++ [Event.mkdirAll p]⟩) := by
  unfold mkdirAll; rw [h]

lemma mkdirAll_err (o : Oracles) (p : String) (st : St) (e : GoError)
    (h : o.mkdirAllErr p = some e) :
    mkdirAll o p st = (some e, ⟨st.fs, st.events ++ [Event.mkdirAll p]⟩) := by
  unfold mkdirAll; rw [h]

lemma generateSSHKey_ok (o : Oracles) (dir nm : String) (st : St)
    (priv pub : String) (h : o.genSSHKey = .ok (priv, pub)) :
    generateSSHKey o dir nm st =
      (none, ⟨(st.fs.setFile (pathJoin dir nm) priv).setFile
          (pathJoin dir (nm ++ ".pub")) pub,
        st.events ++ [Event.genSSHKey dir nm]⟩) := by
  unfold generateSSHKey; rw [h]

lemma generateSSHKey_err (o : Oracles) (dir nm : String) (st : St)
    (e : GoError) (h : o.genSSHKey = .error e) :
    generateSSHKey o dir nm st =
      (some e, ⟨st.fs, st.events ++ [Event.genSSHKey dir nm]⟩) := by
  unfold generateSSHKey; rw [h]

lemma createSparseFile_ok (o : Oracles) (p : String) (size : Nat) (st : St)
    (h : o.createSparseErr p = none) :
    createSparseFile o p size st =
      (none, ⟨st.fs.setFile p "", st.events ++ [Event.createSparse p size]⟩) := by
  unfold createSparseFile; rw [h]

lemma createSparseFile_err (o : Oracles) (p : String) (size : Nat) (st : St)
    (e : GoError) (h : o.createSparseErr p = some e) :
    createSparseFile o p size st =
      (some e, ⟨st.fs, st.events ++ [Event.createSparse p size]⟩) := by
  unfold createSparseFile; rw [h]

/-! ## Socket namespace reset -/

lemma reset_contains (fs : FS) (p : String) :
    ((fs.removeTree p).addDir p).dirs.contains p = true := by
  unfold FS.addDir
  split
  · next h => exact h
  · simp [List.contains]

lemma contains_filter_under (p q : String) (hu : isUnder p q = true) (l : List String) :
    (List.filter (fun d => ¬ isUnder p d) l).contains q = false := by
  rw [Bool.eq_false_iff]
  intro h
  have hm : q ∈ List.filter (fun d => ¬ isUnder p d) l := List.elem_iff.mp h
  rw [List.mem_filter] at hm
  simp [hu] at hm

lemma any_filter_under (p q : String) (hu : isUnder p q = true)
    (l : List (String × String)) :
    ((List.filter (fun f => ¬ isUnder p f.1) l).any (fun f => f.1 = q)) = false := by
  rw [Bool.eq_false_iff]
  intro h
  rw [List.any_eq_true] at h
  obtain ⟨x, hx, hxq⟩ := h
  rw [List.mem_filter] at hx
  rw [decide_eq_true_iff] at hxq
  rw [hxq] at hx
  simp [hu] at hx

/-- After removing the tree at `p` and re-adding the directory `p`, no
path strictly below `p` exists. -/
lemma reset_not_exists (fs : FS) (p q : String) (hu : isUnder p q = true) (hq : q ≠ p) :
    ((fs.removeTree p).addDir p).existsPath q = false := by
  rw [Bool.eq_false_iff]
  intro hex
  unfold FS.existsPath FS.addDir FS.removeTree at hex
  split at hex <;> rw [Bool.or_eq_true] at hex <;> rcases hex with hd | hf
  · rw [contains_filter_under p q hu] at hd; cases hd
  · rw [any_filter_under p q hu] at hf; cases hf
  · have hm : q ∈ p :: List.filter (fun d => ¬ isUnder p d) fs.dirs := List.elem_iff.mp hd
    rcases List.mem_cons.mp hm with h1 | h2
    · exact hq h1
    · rw [List.mem_filter] at h2; simp [hu] at h2
  · rw [any_filter_under p q hu] at hf; cases hf

/-- **C5.** When `socketPath()` succeeds on a socket directory resolving
to `p`, it has removed the directory tree at `p` recursively and
recreated the directory (so the directory exists and nothing below it
survives), and it derives exactly the seven socket path fields as `p`
joined with the process name followed by each fixed suffix, plus
`Endpoint = "unix://" ++ SocketNetworkPath`. -/
theorem socketPath_reset_and_derived (fl : Flags) (o : Oracles) (c : Context)
    (st : St) (p : String)
    (habs : goAbs o.getwd fl.socketPath = .ok p)
    (hres : (socketPath fl o c st).res = none) :
    ((socketPath fl o c st).ctx.SocketPath = p ∧
     (socketPath fl o c st).ctx.ForwardSocketPath = pathJoin p (fl.name ++ "-podman.sock") ∧
     (socketPath fl o c st).ctx.SocketNetworkPath = pathJoin p (fl.name ++ "-vfkit-network.sock") ∧
     (socketPath fl o c st).ctx.SocketInitrdVSockPath = pathJoin p (fl.name ++ "-initrd-vsock.sock") ∧
     (socketPath fl o c st).ctx.SocketReadyPath = pathJoin p (fl.name ++ "-ready.sock") ∧
     (socketPath fl o c st).ctx.RestfulSocketPath = pathJoin p (fl.name ++ "-restful.sock") ∧
     (socketPath fl o c st).ctx.TimeSyncSocketPath = pathJoin p (fl.name ++ "-sync-time.sock") ∧
     (socketPath fl o c st).ctx.SSHAuthSocketPath = pathJoin p (fl.name ++ "-ssh-auth.sock") ∧
     (socketPath fl o c st).ctx.Endpoint =
       "unix://" ++ (socketPath fl o c st).ctx.SocketNetworkPath) ∧
    ((socketPath fl o c st).st.events = st.events ++ [Event.removeAll p, Event.mkdirAll p] ∧
     (socketPath fl o c st).st.fs.dirs.contains p = true ∧
     (∀ q, isUnder p q = true → q ≠ p →
       (socketPath fl o c st).st.fs.existsPath q = false)) := by
  unfold socketPath at hres ⊢
  rw [habs] at hres ⊢
  dsimp only at hres ⊢
  cases hrm : o.removeAllErr p with
  | some e =>
    rw [removeAll_err o p st e hrm] at hres
    dsimp only at hres
    exact absurd hres (by simp)
  | none =>
    rw [removeAll_ok o p st hrm] at hres ⊢
    dsimp only at hres ⊢
    cases hmk : o.mkdirAllErr p with
    | some e =>
      rw [mkdirAll_err o p _ e hmk] at hres
      dsimp only at hres
      exact absurd hres (by simp)
    | none =>
      rw [mkdirAll_ok o p _ hmk]
      dsimp only
      refine ⟨⟨rfl, rfl, rfl, rfl, rfl, rfl, rfl, rfl, rfl⟩, ?_, ?_, ?_⟩
      · simp
      · exact reset_contains st.fs p
      · intro q h1 h2
        exact reset_not_exists st.fs p q h1 h2

/-- **C5 witness.** A concrete successful `socketPath()` run: a stray
file below the socket directory is gone afterwards, and the derived
fields have the documented shapes. -/
theorem socketPath_reset_and_derived_witness :
    (goAbs wOracles.getwd wFlags.socketPath = .ok "/run/sock" ∧
     (socketPath wFlags wOracles {} ⟨⟨["/run/sock"], [("/run/sock/stale.sock", "x")]⟩, []⟩).res = none) ∧
    (socketPath wFlags wOracles {} ⟨⟨["/run/sock"], [("/run/sock/stale.sock", "x")]⟩, []⟩).st.fs.existsPath
      "/run/sock/stale.sock" = false :=
  ⟨⟨rfl, rfl⟩,
    (socketPath_reset_and_derived wFlags wOracles {}
      ⟨⟨["/run/sock"], [("/run/sock/stale.sock", "x")]⟩, []⟩ "/run/sock" rfl rfl).2.2.2
      "/run/sock/stale.sock" (by decide) (by decide)⟩

/-! ## File-map lemmas -/

lemma find_filter_ne (a b : String) (h : b ≠ a) (l : List (String × String)) :
    List.find? (fun f => f.1 = b) (l.filter (fun f => ¬ f.1 = a)) =
    List.find? (fun f => f.1 = b) l := by
  induction l with
  | nil => rfl
  | cons cv t ih =>
    by_cases hc : cv.1 = a
    · rw [List.filter_cons, if_neg (by simp [hc]), ih,
        List.find?_cons_of_neg _ (by simp [hc, Ne.symm h])]
    · rw [List.filter_cons, if_pos (by simp [hc])]
      by_cases hb : cv.1 = b
      · rw [List.find?_cons_of_pos _ (by simp [hb]),
          List.find?_cons_of_pos _ (by simp [hb])]
      · rw [List.find?_cons_of_neg _ (by simp [hb]),
          List.find?_cons_of_neg _ (by simp [hb]), ih]

lemma fileContent_setFile_same (fs : FS) (a x : String) :
    (fs.setFile a x).fileContent a = some x := by
  unfold FS.setFile FS.fileContent
  rw [List.find?_cons_of_pos _ (by simp)]
  rfl

lemma fileContent_setFile_other (fs : FS) (a x b : String) (h : b ≠ a) :
    (fs.setFile a x).fileContent b = fs.fileContent b := by
  unfold FS.setFile FS.fileContent
  rw [List.find?_cons_of_neg _ (by simp [Ne.symm h]), find_filter_ne a b h]

lemma existsPath_setFile_same (fs : FS) (a x : String) :
    (fs.setFile a x).existsPath a = true := by
  unfold FS.setFile FS.existsPath
  simp

/-! ## SSH keypair provisioning -/



lemma sshReadPhase_st (o : Oracles) (c : Context) (pub : String) (st2 : St) :
    (sshReadPhase o c pub st2).st = st2 := by
  unfold sshReadPhase
  split
  · cases o.readErr pub <;> rfl
  · rfl

lemma removeAll_snd_events (o : Oracles) (p : String) (st : St) :
    (removeAll o p st).2.events = st.events ++ [Event.removeAll p] := by
  unfold removeAll
  cases o.removeAllErr p <;> rfl

lemma generateSSHKey_snd_events (o : Oracles) (dir nm : String) (st : St) :
    (generateSSHKey o dir nm st).2.events = st.events ++ [Event.genSSHKey dir nm] := by
  unfold generateSSHKey
  cases o.genSSHKey <;> rfl

lemma addDir_files (fs : FS) (p : String) : (fs.addDir p).files = fs.files := by
  unfold FS.addDir
  split <;> rfl

lemma statPath_none_exists (o : Oracles) (p : String) (fs : FS)
    (h : statPath o p fs = none) : fs.existsPath p = true := by
  unfold statPath at h
  cases hse : o.statErr p with
  | some e => rw [hse] at h; cases h
  | none =>
    rw [hse] at h
    dsimp only at h
    by_cases he : fs.existsPath p = true
    · exact he
    · simp [he] at h

/-- `ssh()` under a resolvable key directory `p` and successful directory
creation, re-expressed over the post-`MkdirAll` state: stat both key
files; on any stat failure run best-effort removals and key generation;
finish by reading the public key. -/
lemma ssh_eq (fl : Flags) (o : Oracles) (c : Context) (st : St) (p : String)
    (habs : goAbs o.getwd fl.sshKeyPath = .ok p)
    (hmk : o.mkdirAllErr p = none) :
    ssh fl o c st =
      (let c2 : Context := { c with
          SSHKeyPath := p,
          SSHPrivateKeyPath := pathJoin p fl.name,
          SSHPublicKeyPath := pathJoin p (fl.name ++ ".pub") }
       let stm : St := ⟨st.fs.addDir p, st.events ++ [Event.mkdirAll p]⟩
       match firstErr (statPath o (pathJoin p fl.name) stm.fs)
          (statPath o (pathJoin p (fl.name ++ ".pub")) stm.fs) with
       | none => sshReadPhase o c2 (pathJoin p (fl.name ++ ".pub")) stm
       | some _ =>
         let r1 := removeAll o (pathJoin p fl.name) stm
         let r2 := removeAll o (pathJoin p (fl.name ++ ".pub")) r1.2
         match generateSSHKey o p fl.name r2.2 with
         | (some e, st2) => ⟨some e, c2, st2⟩
         | (none, st2) => sshReadPhase o c2 (pathJoin p (fl.name ++ ".pub")) st2) := by
  unfold ssh sshReadPhase
  rw [habs]
  dsimp only
  rw [mkdirAll_ok o p st hmk]
  dsimp only
  cases hpriv : statPath o (pathJoin p fl.name)
      (⟨st.fs.addDir p, st.events ++ [Event.mkdirAll p]⟩ : St).fs with
  | some e => dsimp only [firstErr]
  | none =>
    dsimp only [firstErr]
    cases hpub : statPath o (pathJoin p (fl.name ++ ".pub"))
        (⟨st.fs.addDir p, st.events ++ [Event.mkdirAll p]⟩ : St).fs with
    | some e => dsimp only
    | none => dsimp only

/-- **C3.** In `ssh()` (with the key directory resolving to `p` and
created successfully): if the stat of either the private or the public
key path fails, both files are removed best-effort (delete outcomes
ignored) and the key-generation capability is invoked, so that whenever
it produces a fresh pair, the files at both paths are exactly the fresh
pair (no half of the old keypair survives); if both stats succeed, no
removal and no key generation happen and the files are untouched. -/
theorem ssh_self_heal (fl : Flags) (o : Oracles) (c : Context) (st : St) (p : String)
    (habs : goAbs o.getwd fl.sshKeyPath = .ok p)
    (hmk : o.mkdirAllErr p = none) :
    (∀ e, (statPath o (pathJoin p fl.name) (st.fs.addDir p) = some e ∨
           statPath o (pathJoin p (fl.name ++ ".pub")) (st.fs.addDir p) = some e) →
      ((ssh fl o c st).st.events =
         st.events ++ [Event.mkdirAll p, Event.removeAll (pathJoin p fl.name),
           Event.removeAll (pathJoin p (fl.name ++ ".pub")), Event.genSSHKey p fl.name] ∧
       (∀ pc qc, o.genSSHKey = .ok (pc, qc) →
         pathJoin p fl.name ≠ pathJoin p (fl.name ++ ".pub") →
         (ssh fl o c st).st.fs.fileContent (pathJoin p fl.name) = some pc ∧
         (ssh fl o c st).st.fs.fileContent (pathJoin p (fl.name ++ ".pub")) = some qc))) ∧
    (statPath o (pathJoin p fl.name) (st.fs.addDir p) = none →
     statPath o (pathJoin p (fl.name ++ ".pub")) (st.fs.addDir p) = none →
      ((ssh fl o c st).st.events = st.events ++ [Event.mkdirAll p] ∧
       (ssh fl o c st).st.fs.files = st.fs.files)) := by
  rw [ssh_eq fl o c st p habs hmk]
  dsimp only
  constructor
  · intro e he
    have hs : firstErr (statPath o (pathJoin p fl.name) (st.fs.addDir p))
        (statPath o (pathJoin p (fl.name ++ ".pub")) (st.fs.addDir p)) ≠ none := by
      rcases he with he | he
      · rw [he]; simp [firstErr]
      · cases hpriv : statPath o (pathJoin p fl.name) (st.fs.addDir p) with
        | some e2 => simp [firstErr]
        | none => rw [he]; simp [firstErr]
    cases hfe : firstErr (statPath o (pathJoin p fl.name) (st.fs.addDir p))
        (statPath o (pathJoin p (fl.name ++ ".pub")) (st.fs.addDir p)) with
    | none => exact absurd hfe hs
    | some e0 =>
      dsimp only
      cases hgen : o.genSSHKey with
      | error eg =>
        rw [generateSSHKey_err o p fl.name _ eg hgen]
        dsimp only
        refine ⟨?_, ?_⟩
        · rw [removeAll_snd_events, removeAll_snd_events]
          simp
        · intro pc qc hok
          exact Except.noConfusion hok
      | ok pair =>
        rw [generateSSHKey_ok o p fl.name _ pair.1 pair.2 (by rw [hgen])]
        dsimp only
        rw [sshReadPhase_st]
        refine ⟨?_, ?_⟩
        · dsimp only
          rw [removeAll_snd_events, removeAll_snd_events]
          simp
        · intro pc qc hok hne
          injection hok with hpair
          subst hpair
          dsimp only
          constructor
          · rw [fileContent_setFile_other _ _ _ _ hne, fileContent_setFile_same]
          · rw [fileContent_setFile_same]
  · intro h1 h2
    rw [h1, h2]
    dsimp only [firstErr]
    rw [sshReadPhase_st]
    exact ⟨rfl, addDir_files st.fs p⟩

/-- **C3 witness.** On an empty filesystem both stats fail, so a fresh
pair is generated and both files hold exactly the fresh key material. -/
theorem ssh_self_heal_witness :
    (goAbs wOracles.getwd wFlags.sshKeyPath = .ok "/home/u/.ovm/ssh" ∧
     wOracles.mkdirAllErr "/home/u/.ovm/ssh" = none ∧
     statPath wOracles (pathJoin "/home/u/.ovm/ssh" wFlags.name)
       ((⟨⟨[], []⟩, []⟩ : St).fs.addDir "/home/u/.ovm/ssh") =
       some (GoError.notExist "/home/u/.ovm/ssh/ovm") ∧
     wOracles.genSSHKey = .ok ("PRIVKEY", " ssh-ed25519 AAAA ovm \n")) ∧
    (ssh wFlags wOracles {} ⟨⟨[], []⟩, []⟩).st.fs.fileContent
        "/home/u/.ovm/ssh/ovm.pub" = some " ssh-ed25519 AAAA ovm \n" :=
  ⟨⟨rfl, rfl, by decide, rfl⟩, by
    have h := ((ssh_self_heal wFlags wOracles {} ⟨⟨[], []⟩, []⟩
        "/home/u/.ovm/ssh" rfl rfl).1
        (GoError.notExist "/home/u/.ovm/ssh/ovm") (Or.inl (by decide))).2
        "PRIVKEY" " ssh-ed25519 AAAA ovm \n" rfl (by decide)
    have h2 := h.2
    rw [show pathJoin "/home/u/.ovm/ssh" (wFlags.name ++ ".pub") =
        "/home/u/.ovm/ssh/ovm.pub" from by decide] at h2
    exact h2⟩

lemma sshReadPhase_success (o : Oracles) (c : Context) (pub : String) (st2 : St)
    (h : (sshReadPhase o c pub st2).res = none) :
    (sshReadPhase o c pub st2).ctx.SSHPublicKey =
      trimSpace (((sshReadPhase o c pub st2).st.fs.fileContent pub).getD "") := by
  unfold sshReadPhase at h ⊢
  by_cases hex : st2.fs.existsPath pub = true
  · rw [if_pos hex] at h ⊢
    cases hrd : o.readErr pub with
    | some e =>
      rw [hrd] at h
      simp at h
    | none => rfl
  · rw [if_neg hex] at h
    simp at h

/-- **C7.** `ssh()` error propagation is verbatim: a directory-creation
failure, a key-generation failure, or a public-key read failure each
becomes the return value of `ssh()` unchanged, and any `ssh()` failure is
fatal to `Setup()`; on success, `SSHPublicKey` is exactly the contents of
the public key file with surrounding whitespace trimmed. -/
theorem ssh_public_key_and_error_propagation (fl : Flags) (o : Oracles)
    (c : Context) (st : St) (p : String)
    (habs : goAbs o.getwd fl.sshKeyPath = .ok p) :
    (∀ e, o.mkdirAllErr p = some e → (ssh fl o c st).res = some e) ∧
    (∀ e eg, o.mkdirAllErr p = none →
      (statPath o (pathJoin p fl.name) (st.fs.addDir p) = some e ∨
       statPath o (pathJoin p (fl.name ++ ".pub")) (st.fs.addDir p) = some e) →
      o.genSSHKey = .error eg → (ssh fl o c st).res = some eg) ∧
    (∀ e, o.mkdirAllErr p = none →
      statPath o (pathJoin p fl.name) (st.fs.addDir p) = none →
      statPath o (pathJoin p (fl.name ++ ".pub")) (st.fs.addDir p) = none →
      o.readErr (pathJoin p (fl.name ++ ".pub")) = some e →
      (ssh fl o c st).res = some e) ∧
    ((ssh fl o c st).res = none →
      (ssh fl o c st).ctx.SSHPublicKey =
        trimSpace (((ssh fl o c st).st.fs.fileContent
          (pathJoin p (fl.name ++ ".pub"))).getD "")) ∧
    (∀ e, (ssh fl o (socketPath fl o c st).ctx (socketPath fl o c st).st).res = some e →
      (setup fl o c st).res ≠ none) := by
  refine ⟨?_, ?_, ?_, ?_, ?_⟩
  · intro e hmkE
    unfold ssh
    rw [habs]
    dsimp only
    rw [mkdirAll_err o p st e hmkE]
  · intro e eg hmk hstat hgen
    rw [ssh_eq fl o c st p habs hmk]
    dsimp only
    have hs : firstErr (statPath o (pathJoin p fl.name) (st.fs.addDir p))
        (statPath o (pathJoin p (fl.name ++ ".pub")) (st.fs.addDir p)) ≠ none := by
      rcases hstat with hh | hh
      · rw [hh]; simp [firstErr]
      · cases hpriv : statPath o (pathJoin p fl.name) (st.fs.addDir p) with
        | some e2 => simp [firstErr]
        | none => rw [hh]; simp [firstErr]
    cases hfe : firstErr (statPath o (pathJoin p fl.name) (st.fs.addDir p))
        (statPath o (pathJoin p (fl.name ++ ".pub")) (st.fs.addDir p)) with
    | none => exact absurd hfe hs
    | some e0 =>
      dsimp only
      rw [generateSSHKey_err o p fl.name _ eg hgen]
  · intro e hmk h1 h2 hrd
    rw [ssh_eq fl o c st p habs hmk]
    dsimp only
    rw [h1, h2]
    dsimp only [firstErr]
    unfold sshReadPhase
    rw [if_pos (statPath_none_exists o _ _ h2), hrd]
  · cases hmk : o.mkdirAllErr p with
    | some e =>
      intro hres
      unfold ssh at hres
      rw [habs] at hres
      dsimp only at hres
      rw [mkdirAll_err o p st e hmk] at hres
      dsimp only at hres
      exact absurd hres (by simp)
    | none =>
      rw [ssh_eq fl o c st p habs hmk]
      dsimp only
      split
      · intro hres
        exact sshReadPhase_success _ _ _ _ hres
      · split
        · intro hres
          exact absurd hres (by simp)
        · intro hres
          exact sshReadPhase_success _ _ _ _ hres
  · intro e h hsetup
    unfold setup at hsetup
    dsimp only at hsetup
    rw [h] at hsetup
    rw [firstErr_eq_none] at hsetup
    obtain ⟨h1, h2⟩ := hsetup
    rw [firstErr_eq_none] at h2
    exact absurd h2.1 (by simp)

/-- **C7 witness.** A concrete successful run: the public key string is
the trimmed contents of the generated public key file. -/
theorem ssh_public_key_witness :
    (goAbs wOracles.getwd wFlags.sshKeyPath = .ok "/home/u/.ovm/ssh" ∧
     (ssh wFlags wOracles {} wSt).res = none) ∧
    (ssh wFlags wOracles {} wSt).ctx.SSHPublicKey =
      trimSpace (((ssh wFlags wOracles {} wSt).st.fs.fileContent
        (pathJoin "/home/u/.ovm/ssh" (wFlags.name ++ ".pub"))).getD "") :=
  ⟨⟨rfl, rfl⟩,
    (ssh_public_key_and_error_propagation wFlags wOracles {} wSt
      "/home/u/.ovm/ssh" rfl).2.2.2.1 rfl⟩

/-! ## Scratch disk -/

/-- `target()` under a resolvable target directory `p` and successful
directory creation, re-expressed over the post-`MkdirAll` state. -/
lemma target_eq (fl : Flags) (o : Oracles) (c : Context) (st : St) (p : String)
    (habs : goAbs o.getwd fl.targetPath = .ok p)
    (hmk : o.mkdirAllErr p = none) :
    target fl o c st =
      (let c2 : Context := { c with
          TargetPath := p,
          VersionsPath := pathJoin p "versions.json",
          KernelPath := pathJoin p (base fl.kernelPath),
          InitrdPath := pathJoin p (base fl.initrdPath),
          RootfsPath := pathJoin p (base fl.rootfsPath),
          DiskDataPath := pathJoin p "data.img",
          DiskTmpPath := pathJoin p "tmp.img" }
       let stm : St := ⟨st.fs.addDir p, st.events ++ [Event.mkdirAll p]⟩
       match o.newTargetRes with
       | .error e => ⟨some e, c2, stm⟩
       | .ok _ =>
         match o.handleRes with
         | .error e => ⟨some e, c2, stm⟩
         | .ok _ =>
           match statPath o (pathJoin p "tmp.img") stm.fs with
           | none => ⟨none, c2, stm⟩
           | some _ =>
             match createSparseFile o (pathJoin p "tmp.img") 1099511627776 stm with
             | (some e, st2) => ⟨some e, c2, st2⟩
             | (none, st2) => ⟨none, c2, st2⟩) := by
  unfold target
  rw [habs]
  dsimp only
  rw [mkdirAll_ok o p st hmk]

/-- **C4 (amended).** In `target()` (target directory resolving to `p`,
created successfully, reconciliation succeeding): when the stat of
`DiskTmpPath` fails — in particular whenever no file exists there —
sparse allocation of exactly `2^40` bytes is requested at that path (and
on success of the allocation the step returns nil and the file exists);
when the stat succeeds (a file exists and is accessible), the scratch-disk
step is a no-op: no allocation is requested and the state is untouched. -/
theorem target_scratch_disk (fl : Flags) (o : Oracles) (c : Context) (st : St)
    (p : String)
    (habs : goAbs o.getwd fl.targetPath = .ok p)
    (hmk : o.mkdirAllErr p = none)
    (hnt : o.newTargetRes = .ok ()) (hh : o.handleRes = .ok ()) :
    (∀ e, statPath o (pathJoin p "tmp.img") (st.fs.addDir p) = some e →
      ((target fl o c st).st.events =
         st.events ++ [Event.mkdirAll p,
           Event.createSparse (pathJoin p "tmp.img") 1099511627776] ∧
       (o.createSparseErr (pathJoin p "tmp.img") = none →
         (target fl o c st).res = none ∧
         (target fl o c st).st.fs.fileContent (pathJoin p "tmp.img") = some ""))) ∧
    (statPath o (pathJoin p "tmp.img") (st.fs.addDir p) = none →
      ((target fl o c st).res = none ∧
       (target fl o c st).st =
         ⟨st.fs.addDir p, st.events ++ [Event.mkdirAll p]⟩)) := by
  rw [target_eq fl o c st p habs hmk]
  dsimp only
  rw [hnt, hh]
  dsimp only
  constructor
  · intro e hstat
    rw [hstat]
    dsimp only
    cases hcs : o.createSparseErr (pathJoin p "tmp.img") with
    | some e2 =>
      rw [createSparseFile_err o _ _ _ e2 hcs]
      dsimp only
      refine ⟨by simp, ?_⟩
      intro hnone
      exact absurd hnone (by simp)
    | none =>
      rw [createSparseFile_ok o _ _ _ hcs]
      dsimp only
      refine ⟨by simp, ?_⟩
      intro _
      exact ⟨rfl, fileContent_setFile_same _ _ _⟩
  · intro hstat
    rw [hstat]
    dsimp only
    exact ⟨rfl, rfl⟩

/-- **C4 witness.** On an empty target directory the stat fails and a
1 TiB sparse allocation is requested at `DiskTmpPath`. -/
theorem target_scratch_disk_witness :
    (goAbs wOracles.getwd wFlags.targetPath = .ok "/opt/ovm" ∧
     statPath wOracles (pathJoin "/opt/ovm" "tmp.img")
       ((⟨⟨[], []⟩, []⟩ : St).fs.addDir "/opt/ovm") =
       some (GoError.notExist "/opt/ovm/tmp.img")) ∧
    (target wFlags wOracles {} ⟨⟨[], []⟩, []⟩).st.events =
      [Event.mkdirAll "/opt/ovm",
       Event.createSparse (pathJoin "/opt/ovm" "tmp.img") 1099511627776] :=
  ⟨⟨rfl, by decide⟩,
    ((target_scratch_disk wFlags wOracles {} ⟨⟨[], []⟩, []⟩ "/opt/ovm"
      rfl rfl rfl rfl).1 (GoError.notExist "/opt/ovm/tmp.img") (by decide)).1⟩



/-- **C4 counterexample.** A file already exists at `DiskTmpPath`, yet the
scratch-disk step is not a no-op: the stat fails with a permission error,
so `target()` requests sparse allocation anyway and the existing file does
not survive untouched. -/
theorem target_scratch_disk_cex :
    ((⟨⟨[], [("/opt/ovm/tmp.img", "OLD-DATA")]⟩, []⟩ : St).fs.existsPath
        "/opt/ovm/tmp.img" = true) ∧
    (target wFlags cexStatOracles {}
        ⟨⟨[], [("/opt/ovm/tmp.img", "OLD-DATA")]⟩, []⟩).st.events.contains
      (Event.createSparse "/opt/ovm/tmp.img" 1099511627776) = true ∧
    (target wFlags cexStatOracles {}
        ⟨⟨[], [("/opt/ovm/tmp.img", "OLD-DATA")]⟩, []⟩).st.fs.fileContent
      "/opt/ovm/tmp.img" = some "" := by
  refine ⟨by decide, by decide, by decide⟩

/-! ## Non-atomicity of failing sub-steps -/

/-- **C8.** Failing sub-steps leave the `Context` populated: when the
socket directory resolves but its recursive removal fails, `socketPath()`
returns that error yet `SocketPath`, the seven socket path fields and
`Endpoint` are already set; when `/tmp/ovm` creation fails, `basic()`
returns that error yet `Name`, `CPUS`, `MemoryBytes` and the other
flag-derived fields are already set. -/
theorem failing_steps_populate_context (fl : Flags) (o : Oracles)
    (c : Context) (st : St) (p : String) :
    (goAbs o.getwd fl.socketPath = .ok p →
     ∀ e, o.removeAllErr p = some e →
      ((socketPath fl o c st).res = some e ∧
       (socketPath fl o c st).ctx.SocketPath = p ∧
       (socketPath fl o c st).ctx.ForwardSocketPath = pathJoin p (fl.name ++ "-podman.sock") ∧
       (socketPath fl o c st).ctx.SocketNetworkPath = pathJoin p (fl.name ++ "-vfkit-network.sock") ∧
       (socketPath fl o c st).ctx.SocketInitrdVSockPath = pathJoin p (fl.name ++ "-initrd-vsock.sock") ∧
       (socketPath fl o c st).ctx.SocketReadyPath = pathJoin p (fl.name ++ "-ready.sock") ∧
       (socketPath fl o c st).ctx.RestfulSocketPath = pathJoin p (fl.name ++ "-restful.sock") ∧
       (socketPath fl o c st).ctx.TimeSyncSocketPath = pathJoin p (fl.name ++ "-sync-time.sock") ∧
       (socketPath fl o c st).ctx.SSHAuthSocketPath = pathJoin p (fl.name ++ "-ssh-auth.sock") ∧
       (socketPath fl o c st).ctx.Endpoint =
         "unix://" ++ pathJoin p (fl.name ++ "-vfkit-network.sock"))) ∧
    (∀ e, o.mkdirAllErr "/tmp/ovm" = some e →
      ((basic fl o c st).res = some e ∧
       (basic fl o c st).ctx.Name = fl.name ∧
       (basic fl o c st).ctx.CPUS = fl.cpus ∧
       (basic fl o c st).ctx.MemoryBytes = (fl.memory * 1024 * 1024) % 2 ^ 64 ∧
       (basic fl o c st).ctx.IsCliMode = fl.cliMode ∧
       (basic fl o c st).ctx.BindPID = fl.bindPID ∧
       (basic fl o c st).ctx.EventSocketPath = fl.eventSocketPath ∧
       (basic fl o c st).ctx.PowerSaveMode = fl.powerSaveMode ∧
       (basic fl o c st).ctx.KernelDebug = fl.kernelDebug)) := by
  constructor
  · intro habs e hrm
    unfold socketPath
    rw [habs]
    dsimp only
    rw [removeAll_err o p st e hrm]
    dsimp only
    exact ⟨rfl, rfl, rfl, rfl, rfl, rfl, rfl, rfl, rfl, rfl⟩
  · intro e hmk
    unfold basic
    rw [mkdirAll_err o _ st e hmk]
    dsimp only
    refine ⟨rfl, rfl, rfl, ?_, rfl, rfl, rfl, rfl, rfl⟩
    norm_num



/-- **C8 witness.** With a failing removal and a failing `/tmp/ovm`
creation, both sub-steps return errors while the derived fields are
already populated. -/
theorem failing_steps_populate_context_witness :
    (goAbs cexFailOracles.getwd wFlags.socketPath = .ok "/run/sock" ∧
     cexFailOracles.removeAllErr "/run/sock" = some (GoError.io "removal failed") ∧
     cexFailOracles.mkdirAllErr "/tmp/ovm" = some (GoError.io "mkdir failed")) ∧
    (socketPath wFlags cexFailOracles {} wSt).res = some (GoError.io "removal failed") ∧
    (socketPath wFlags cexFailOracles {} wSt).ctx.SocketPath = "/run/sock" ∧
    (basic wFlags cexFailOracles {} wSt).res = some (GoError.io "mkdir failed") ∧
    (basic wFlags cexFailOracles {} wSt).ctx.Name = "ovm" :=
  ⟨⟨rfl, rfl, rfl⟩,
    ((failing_steps_populate_context wFlags cexFailOracles {} wSt "/run/sock").1
      rfl (GoError.io "removal failed") rfl).1,
    ((failing_steps_populate_context wFlags cexFailOracles {} wSt "/run/sock").1
      rfl (GoError.io "removal failed") rfl).2.1,
    ((failing_steps_populate_context wFlags cexFailOracles {} wSt "/run/sock").2
      (GoError.io "mkdir failed") rfl).1,
    ((failing_steps_populate_context wFlags cexFailOracles {} wSt "/run/sock").2
      (GoError.io "mkdir failed") rfl).2.1⟩

/-! ## Lock-file derivation -/

/-- `basic()` on the success path: `ExecutablePath` is the lower-cased
resolved executable path and `LockFile` its MD5-derived name. -/
lemma basic_lockfile (fl : Flags) (o : Oracles) (c : Context) (st : St)
    (q0 q : String)
    (hmk : o.mkdirAllErr "/tmp/ovm" = none)
    (hexe : o.executable = .ok q0)
    (hsym : o.evalSymlinks q0 = .ok q) :
    (basic fl o c st).ctx.ExecutablePath = goToLower q ∧
    (basic fl o c st).ctx.LockFile =
      "/tmp/ovm/" ++ md5HexOfString (goToLower q) ++ "-" ++ fl.name ++ ".pid" := by
  unfold basic
  rw [mkdirAll_ok o _ st hmk]
  dsimp only
  rw [hexe]
  dsimp only
  rw [hsym]
  exact ⟨rfl, rfl⟩

lemma flatMap_hex_length (bs : List Nat) :
    (bs.flatMap (fun b => [hexDigit (b / 16 % 16), hexDigit (b % 16)])).length
      = 2 * bs.length := by
  induction bs with
  | nil => rfl
  | cons b t ih =>
    rw [List.flatMap_cons]
    simp only [List.length_append, List.length_cons, List.length_nil, ih]
    omega

lemma md5Bytes_length (m : List Nat) : (md5Bytes m).length = 16 := by
  unfold md5Bytes le4
  simp

lemma md5Hex_data_length (s : String) :
    (md5HexOfString s).data.length = 32 := by
  unfold md5HexOfString hexEncode
  show (List.flatMap _ _).length = 32
  rw [flatMap_hex_length, md5Bytes_length]

/-- Two lock-file names with distinct 32-character digests differ,
whatever the process names. -/
lemma lockFile_digest_inj (x y nx ny : String)
    (hx : md5HexOfString x ≠ md5HexOfString y) :
    "/tmp/ovm/" ++ md5HexOfString x ++ "-" ++ nx ++ ".pid" ≠
    "/tmp/ovm/" ++ md5HexOfString y ++ "-" ++ ny ++ ".pid" := by
  intro heq
  apply hx
  have hd := congrArg String.data heq
  simp only [String.data_append, List.append_assoc] at hd
  have hd2 := List.append_cancel_left hd
  have hlen : (md5HexOfString x).data.length = (md5HexOfString y).data.length := by
    rw [md5Hex_data_length, md5Hex_data_length]
  obtain ⟨h1, _⟩ := List.append_inj hd2 hlen
  cases hx1 : md5HexOfString x with
  | mk lx =>
    cases hx2 : md5HexOfString y with
    | mk ly =>
      rw [hx1, hx2] at h1
      dsimp only at h1
      rw [h1]

/-- **C2 (amended).** `LockFile` is a deterministic function of the
lower-cased symlink-resolved executable path and the process name: two
successful `basic()` runs whose resolved paths agree after lower-casing
and whose names agree derive an identical `LockFile`; and two runs whose
lower-cased resolved paths have distinct MD5 hex digests derive distinct
`LockFile` names (so distinct binary paths collide exactly when their
lower-cased forms collide under MD5, e.g. paths differing only by letter
case). -/
theorem lockFile_determinism_and_digest_injectivity
    (fl1 fl2 : Flags) (o1 o2 : Oracles) (c1 c2 : Context) (st1 st2 : St)
    (q01 q1 q02 q2 : String)
    (h1mk : o1.mkdirAllErr "/tmp/ovm" = none) (h1e : o1.executable = .ok q01)
    (h1s : o1.evalSymlinks q01 = .ok q1)
    (h2mk : o2.mkdirAllErr "/tmp/ovm" = none) (h2e : o2.executable = .ok q02)
    (h2s : o2.evalSymlinks q02 = .ok q2) :
    (goToLower q1 = goToLower q2 → fl1.name = fl2.name →
      (basic fl1 o1 c1 st1).ctx.LockFile = (basic fl2 o2 c2 st2).ctx.LockFile) ∧
    (md5HexOfString (goToLower q1) ≠ md5HexOfString (goToLower q2) →
      (basic fl1 o1 c1 st1).ctx.LockFile ≠ (basic fl2 o2 c2 st2).ctx.LockFile) := by
  have k1 := (basic_lockfile fl1 o1 c1 st1 q01 q1 h1mk h1e h1s).2
  have k2 := (basic_lockfile fl2 o2 c2 st2 q02 q2 h2mk h2e h2s).2
  constructor
  · intro hq hn
    rw [k1, k2, hq, hn]
  · intro hx
    rw [k1, k2]
    exact lockFile_digest_inj _ _ _ _ hx

set_option maxRecDepth 1000000 in
/-- **C2 witness.** Identical lower-cased resolved paths give an identical
lock file; the distinct paths `/usr/bin/ovm` and `/usr/bin/other` have
distinct digests and give distinct lock files. -/
theorem lockFile_determinism_witness :
    (wOracles.mkdirAllErr "/tmp/ovm" = none ∧
     wOracles.executable = .ok "/usr/bin/OVM" ∧
     goToLower "/usr/bin/OVM" = goToLower "/usr/bin/OVM" ∧
     md5HexOfString (goToLower "/usr/bin/OVM") ≠
       md5HexOfString (goToLower "/usr/bin/other")) ∧
    (basic wFlags wOracles {} wSt).ctx.LockFile =
      (basic wFlags wOracles {} wSt).ctx.LockFile ∧
    (basic wFlags wOracles {} wSt).ctx.LockFile ≠
      (basic wFlags { wOracles with executable := .ok "/usr/bin/other" } {} wSt).ctx.LockFile := by
  refine ⟨⟨rfl, rfl, rfl, ?_⟩, ?_, ?_⟩
  · show md5HexOfString "/usr/bin/ovm" ≠ md5HexOfString "/usr/bin/other"
    decide
  · exact (lockFile_determinism_and_digest_injectivity wFlags wFlags
      wOracles wOracles {} {} wSt wSt "/usr/bin/OVM" "/usr/bin/OVM"
      "/usr/bin/OVM" "/usr/bin/OVM" rfl rfl rfl rfl rfl rfl).1 rfl rfl
  · exact (lockFile_determinism_and_digest_injectivity wFlags wFlags
      wOracles { wOracles with executable := .ok "/usr/bin/other" } {} {}
      wSt wSt "/usr/bin/OVM" "/usr/bin/OVM" "/usr/bin/other" "/usr/bin/other"
      rfl rfl rfl rfl rfl rfl).2 (by decide)



/-- **C2 counterexample.** Two different binary paths (differing only in
letter case) derive an identical `LockFile`: the derivation lower-cases
the resolved path before hashing, so distinct paths do collide. -/
theorem lockFile_collision_cex :
    ("/usr/bin/OVM" ≠ ("/usr/bin/ovm" : String)) ∧
    (basic wFlags wOracles {} wSt).ctx.LockFile =
      (basic wFlags cexLowerOracles {} wSt).ctx.LockFile := by
  refine ⟨by decide, ?_⟩
  rw [(basic_lockfile wFlags wOracles {} wSt "/usr/bin/OVM" "/usr/bin/OVM"
    rfl rfl rfl).2,
    (basic_lockfile wFlags cexLowerOracles {} wSt "/usr/bin/ovm" "/usr/bin/ovm"
    rfl rfl rfl).2]
  rw [show goToLower "/usr/bin/OVM" = goToLower "/usr/bin/ovm" from by decide]

/-! ## Success characterizations of the sub-steps -/

lemma basic_success (fl : Flags) (o : Oracles) (c : Context) (st : St)
    (h : (basic fl o c st).res = none) :
    ∃ q0 q, o.executable = .ok q0 ∧ o.evalSymlinks q0 = .ok q ∧
      o.mkdirAllErr "/tmp/ovm" = none ∧
      basic fl o c st =
        ⟨none,
         { c with
           Name := fl.name, CPUS := fl.cpus,
           MemoryBytes := (fl.memory * 1024 * 1024) % 18446744073709551616,
           IsCliMode := fl.cliMode, BindPID := fl.bindPID,
           EventSocketPath := fl.eventSocketPath,
           PowerSaveMode := fl.powerSaveMode, KernelDebug := fl.kernelDebug,
           ExecutablePath := goToLower q,
           LockFile := "/tmp/ovm/" ++ md5HexOfString (goToLower q) ++ "-" ++
             fl.name ++ ".pid" },
         ⟨st.fs.addDir "/tmp/ovm", st.events ++ [Event.mkdirAll "/tmp/ovm"]⟩⟩ := by
  unfold basic at h ⊢
  cases hmk : o.mkdirAllErr "/tmp/ovm" with
  | some e =>
    rw [mkdirAll_err o _ st e hmk] at h
    dsimp only at h
    exact absurd h (by simp)
  | none =>
    rw [mkdirAll_ok o _ st hmk] at h ⊢
    dsimp only at h ⊢
    cases hexe : o.executable with
    | error e =>
      rw [hexe] at h
      dsimp only at h
      exact absurd h (by simp)
    | ok q0 =>
      rw [hexe] at h
      dsimp only at h ⊢
      cases hsym : o.evalSymlinks q0 with
      | error e =>
        rw [hsym] at h
        dsimp only at h
        exact absurd h (by simp)
      | ok q =>
        dsimp only
        exact ⟨q0, q, rfl, hsym, rfl, rfl⟩

lemma logPath_success (fl : Flags) (o : Oracles) (c : Context) (st : St)
    (h : (logPath fl o c st).res = none) :
    ∃ lp, goAbs o.getwd fl.logPath = .ok lp ∧ o.mkdirAllErr lp = none ∧
      logPath fl o c st =
        ⟨none, { c with LogPath := lp },
         ⟨st.fs.addDir lp, st.events ++ [Event.mkdirAll lp]⟩⟩ := by
  unfold logPath at h ⊢
  cases habs : goAbs o.getwd fl.logPath with
  | error e =>
    rw [habs] at h
    dsimp only at h
    exact absurd h (by simp)
  | ok lp =>
    rw [habs] at h
    dsimp only at h ⊢
    cases hmk : o.mkdirAllErr lp with
    | some e =>
      rw [mkdirAll_err o lp st e hmk] at h
      dsimp only at h
      exact absurd h (by simp)
    | none =>
      rw [mkdirAll_ok o lp st hmk]
      dsimp only
      exact ⟨lp, rfl, hmk, rfl⟩

lemma socketPath_success (fl : Flags) (o : Oracles) (c : Context) (st : St)
    (h : (socketPath fl o c st).res = none) :
    ∃ sp, goAbs o.getwd fl.socketPath = .ok sp ∧
      o.removeAllErr sp = none ∧ o.mkdirAllErr sp = none ∧
      socketPath fl o c st =
        ⟨none,
         { c with
           SocketPath := sp,
           ForwardSocketPath := pathJoin sp (fl.name ++ "-podman.sock"),
           SocketNetworkPath := pathJoin sp (fl.name ++ "-vfkit-network.sock"),
           SocketInitrdVSockPath := pathJoin sp (fl.name ++ "-initrd-vsock.sock"),
           SocketReadyPath := pathJoin sp (fl.name ++ "-ready.sock"),
           RestfulSocketPath := pathJoin sp (fl.name ++ "-restful.sock"),
           TimeSyncSocketPath := pathJoin sp (fl.name ++ "-sync-time.sock"),
           SSHAuthSocketPath := pathJoin sp (fl.name ++ "-ssh-auth.sock"),
           Endpoint := "unix://" ++ pathJoin sp (fl.name ++ "-vfkit-network.sock") },
         ⟨(st.fs.removeTree sp).addDir sp,
          st.events ++ [Event.removeAll sp, Event.mkdirAll sp]⟩⟩ := by
  unfold socketPath at h ⊢
  cases habs : goAbs o.getwd fl.socketPath with
  | error e =>
    rw [habs] at h
    dsimp only at h
    exact absurd h (by simp)
  | ok sp =>
    rw [habs] at h
    dsimp only at h ⊢
    cases hrm : o.removeAllErr sp with
    | some e =>
      rw [removeAll_err o sp st e hrm] at h
      dsimp only at h
      exact absurd h (by simp)
    | none =>
      rw [removeAll_ok o sp st hrm] at h ⊢
      dsimp only at h ⊢
      cases hmk : o.mkdirAllErr sp with
      | some e =>
        rw [mkdirAll_err o sp _ e hmk] at h
        dsimp only at h
        exact absurd h (by simp)
      | none =>
        rw [mkdirAll_ok o sp _ hmk]
        dsimp only
        refine ⟨sp, rfl, hrm, hmk, ?_⟩
        simp

lemma sshPort_success (fl : Flags) (o : Oracles) (c : Context) (st : St)
    (h : (sshPort fl o c st).res = none) :
    ∃ port, o.findUsablePort 2233 = .ok port ∧
      sshPort fl o c st = ⟨none, { c with SSHPort := port }, st⟩ := by
  unfold sshPort at h ⊢
  cases hp : o.findUsablePort 2233 with
  | error e =>
    rw [hp] at h
    dsimp only at h
    exact absurd h (by simp)
  | ok port =>
    dsimp only
    exact ⟨port, rfl, rfl⟩

/-! ## Directory preservation -/

lemma addDir_contains_self (fs : FS) (p : String) :
    (fs.addDir p).dirs.contains p = true := by
  unfold FS.addDir
  split
  · next hh => exact hh
  · simp [List.contains]

lemma addDir_contains_mono (fs : FS) (p d : String)
    (h : fs.dirs.contains d = true) :
    (fs.addDir p).dirs.contains d = true := by
  unfold FS.addDir
  split
  · exact h
  · have hm : d ∈ fs.dirs := List.elem_iff.mp h
    exact List.elem_iff.mpr (List.mem_cons_of_mem p hm)

lemma removeTree_contains (fs : FS) (r d : String)
    (hu : isUnder r d = false) (h : fs.dirs.contains d = true) :
    (fs.removeTree r).dirs.contains d = true := by
  unfold FS.removeTree
  have hm : d ∈ fs.dirs := List.elem_iff.mp h
  exact List.elem_iff.mpr (List.mem_filter.mpr ⟨hm, by simp [hu]⟩)

lemma removeAll_snd_contains (o : Oracles) (r : String) (st : St) (d : String)
    (hu : isUnder r d = false) (h : st.fs.dirs.contains d = true) :
    (removeAll o r st).2.fs.dirs.contains d = true := by
  unfold removeAll
  cases o.removeAllErr r with
  | some e => exact h
  | none => exact removeTree_contains st.fs r d hu h

lemma setFile_dirs (fs : FS) (a x : String) : (fs.setFile a x).dirs = fs.dirs := rfl

lemma generateSSHKey_snd_dirs (o : Oracles) (dir nm : String) (st : St) :
    (generateSSHKey o dir nm st).2.fs.dirs = st.fs.dirs := by
  unfold generateSSHKey
  cases o.genSSHKey <;> rfl

/-- The success path of `sshReadPhase` as a `Step` equality. -/
lemma sshReadPhase_success_eq (o : Oracles) (c : Context) (pub : String) (st2 : St)
    (h : (sshReadPhase o c pub st2).res = none) :
    sshReadPhase o c pub st2 =
      ⟨none, { c with SSHPublicKey := trimSpace ((st2.fs.fileContent pub).getD "") },
       st2⟩ := by
  unfold sshReadPhase at h ⊢
  by_cases hex : st2.fs.existsPath pub = true
  · rw [if_pos hex] at h ⊢
    cases hrd : o.readErr pub with
    | some e =>
      rw [hrd] at h
      simp at h
    | none => rfl
  · rw [if_neg hex] at h
    simp at h

lemma ssh_success_c1 (fl : Flags) (o : Oracles) (c : Context) (st : St)
    (h : (ssh fl o c st).res = none) :
    ∃ p pk sst,
      goAbs o.getwd fl.sshKeyPath = .ok p ∧
      ssh fl o c st =
        ⟨none,
         { c with
           SSHKeyPath := p,
           SSHPrivateKeyPath := pathJoin p fl.name,
           SSHPublicKeyPath := pathJoin p (fl.name ++ ".pub"),
           SSHPublicKey := pk },
         sst⟩ ∧
      (∀ d, st.fs.dirs.contains d = true →
        isUnder (pathJoin p fl.name) d = false →
        isUnder (pathJoin p (fl.name ++ ".pub")) d = false →
        sst.fs.dirs.contains d = true) ∧
      (isUnder (pathJoin p fl.name) p = false →
       isUnder (pathJoin p (fl.name ++ ".pub")) p = false →
       sst.fs.dirs.contains p = true) := by
  cases habs : goAbs o.getwd fl.sshKeyPath with
  | error e =>
    unfold ssh at h
    rw [habs] at h
    dsimp only at h
    exact absurd h (by simp)
  | ok p =>
    cases hmk : o.mkdirAllErr p with
    | some e =>
      unfold ssh at h
      rw [habs] at h
      dsimp only at h
      rw [mkdirAll_err o p st e hmk] at h
      dsimp only at h
      exact absurd h (by simp)
    | none =>
      rw [ssh_eq fl o c st p habs hmk] at h ⊢
      dsimp only at h ⊢
      refine ⟨p, ?_⟩
      cases hfe : firstErr (statPath o (pathJoin p fl.name) (st.fs.addDir p))
          (statPath o (pathJoin p (fl.name ++ ".pub")) (st.fs.addDir p)) with
      | none =>
        try rw [hfe] at h
        dsimp only at h ⊢
        rw [sshReadPhase_success_eq o _ _ _ h]
        refine ⟨_, _, rfl, rfl, ?_, ?_⟩
        · intro d hd _ _
          exact addDir_contains_mono st.fs p d hd
        · intro _ _
          exact addDir_contains_self st.fs p
      | some e0 =>
        try rw [hfe] at h
        dsimp only at h ⊢
        cases hgen : o.genSSHKey with
        | error eg =>
          rw [generateSSHKey_err o p fl.name _ eg hgen] at h
          dsimp only at h
          exact absurd h (by simp)
        | ok pair =>
          rw [generateSSHKey_ok o p fl.name _ pair.1 pair.2 (by rw [hgen])] at h ⊢
          dsimp only at h ⊢
          rw [sshReadPhase_success_eq o _ _ _ h]
          refine ⟨_, _, rfl, rfl, ?_, ?_⟩
          · intro d hd h1 h2
            show ((((removeAll o (pathJoin p (fl.name ++ ".pub"))
              (removeAll o (pathJoin p fl.name)
                ⟨st.fs.addDir p, st.events ++ [Event.mkdirAll p]⟩).2).2.fs.setFile
                  (pathJoin p fl.name) pair.1).setFile
                  (pathJoin p (fl.name ++ ".pub")) pair.2).dirs.contains d) = true
            rw [setFile_dirs, setFile_dirs]
            exact removeAll_snd_contains o _ _ d h2
              (removeAll_snd_contains o _ _ d h1 (addDir_contains_mono st.fs p d hd))
          · intro h1 h2
            show ((((removeAll o (pathJoin p (fl.name ++ ".pub"))
              (removeAll o (pathJoin p fl.name)
                ⟨st.fs.addDir p, st.events ++ [Event.mkdirAll p]⟩).2).2.fs.setFile
                  (pathJoin p fl.name) pair.1).setFile
                  (pathJoin p (fl.name ++ ".pub")) pair.2).dirs.contains p) = true
            rw [setFile_dirs, setFile_dirs]
            exact removeAll_snd_contains o _ _ p h2
              (removeAll_snd_contains o _ _ p h1 (addDir_contains_self st.fs p))

lemma target_success (fl : Flags) (o : Oracles) (c : Context) (st : St)
    (h : (target fl o c st).res = none) :
    ∃ tp sst,
      goAbs o.getwd fl.targetPath = .ok tp ∧
      target fl o c st =
        ⟨none,
         { c with
           TargetPath := tp,
           VersionsPath := pathJoin tp "versions.json",
           KernelPath := pathJoin tp (base fl.kernelPath),
           InitrdPath := pathJoin tp (base fl.initrdPath),
           RootfsPath := pathJoin tp (base fl.rootfsPath),
           DiskDataPath := pathJoin tp "data.img",
           DiskTmpPath := pathJoin tp "tmp.img" },
         sst⟩ ∧
      (∀ d, st.fs.dirs.contains d = true → sst.fs.dirs.contains d = true) ∧
      sst.fs.dirs.contains tp = true := by
  cases habs : goAbs o.getwd fl.targetPath with
  | error e =>
    unfold target at h
    rw [habs] at h
    dsimp only at h
    exact absurd h (by simp)
  | ok tp =>
    cases hmk : o.mkdirAllErr tp with
    | some e =>
      unfold target at h
      rw [habs] at h
      dsimp only at h
      rw [mkdirAll_err o tp st e hmk] at h
      dsimp only at h
      exact absurd h (by simp)
    | none =>
      rw [target_eq fl o c st tp habs hmk] at h ⊢
      dsimp only at h ⊢
      refine ⟨tp, ?_⟩
      cases hnt : o.newTargetRes with
      | error e =>
        rw [hnt] at h
        dsimp only at h
        exact absurd h (by simp)
      | ok u =>
        try rw [hnt] at h
        dsimp only at h ⊢
        cases hh : o.handleRes with
        | error e =>
          rw [hh] at h
          dsimp only at h
          exact absurd h (by simp)
        | ok v =>
          try rw [hh] at h
          dsimp only at h ⊢
          cases hstat : statPath o (pathJoin tp "tmp.img") (st.fs.addDir tp) with
          | none =>
            try rw [hstat] at h
            dsimp only at h ⊢
            refine ⟨_, rfl, rfl, ?_, addDir_contains_self st.fs tp⟩
            intro d hd
            exact addDir_contains_mono st.fs tp d hd
          | some e =>
            try rw [hstat] at h
            dsimp only at h ⊢
            cases hcs : o.createSparseErr (pathJoin tp "tmp.img") with
            | some e2 =>
              rw [createSparseFile_err o _ _ _ e2 hcs] at h
              dsimp only at h
              exact absurd h (by simp)
            | none =>
              rw [createSparseFile_ok o _ _ _ hcs] at h ⊢
              dsimp only at h ⊢
              refine ⟨_, rfl, rfl, ?_, ?_⟩
              · intro d hd
                show ((st.fs.addDir tp).setFile
                  (pathJoin tp "tmp.img") "").dirs.contains d = true
                rw [setFile_dirs]
                exact addDir_contains_mono st.fs tp d hd
              · show ((st.fs.addDir tp).setFile
                  (pathJoin tp "tmp.img") "").dirs.contains tp = true
                rw [setFile_dirs]
                exact addDir_contains_self st.fs tp

lemma isAbs_ne_empty (a : String) (h : isAbs a = true) : a ≠ "" := by
  intro he
  rw [he] at h
  simp [isAbs] at h

lemma isAbs_of_append (a b : String) (h : isAbs a = true) :
    isAbs (a ++ b) = true := by
  rw [isAbs_append_left a b (isAbs_ne_empty a h)]
  exact h

lemma isAbs_goToLower_of (s : String) (h : isAbs s = true) :
    isAbs (goToLower s) = true := by
  cases s with
  | mk l =>
    cases l with
    | nil => simp [isAbs] at h
    | cons c cs =>
      have hc : c = '/' := by
        have h2 : decide (c = '/') = true := h
        exact of_decide_eq_true h2
      subst hc
      rfl

/-- `Setup()`'s result decomposed over its four sub-steps in registration
order. -/
lemma setup_res_decomp (fl : Flags) (o : Oracles) (c : Context) (st : St) :
    (setup fl o c st).res =
      firstErr (socketPath fl o c st).res
        (firstErr (ssh fl o (socketPath fl o c st).ctx (socketPath fl o c st).st).res
          (firstErr
            (sshPort fl o
              (ssh fl o (socketPath fl o c st).ctx (socketPath fl o c st).st).ctx
              (ssh fl o (socketPath fl o c st).ctx (socketPath fl o c st).st).st).res
            (target fl o
              (sshPort fl o
                (ssh fl o (socketPath fl o c st).ctx (socketPath fl o c st).st).ctx
                (ssh fl o (socketPath fl o c st).ctx (socketPath fl o c st).st).st).ctx
              (sshPort fl o
                (ssh fl o (socketPath fl o c st).ctx (socketPath fl o c st).st).ctx
                (ssh fl o (socketPath fl o c st).ctx (socketPath fl o c st).st).st).st).res)) := rfl

/-- **C1 (amended).** After a successful `PreSetup()` then `Setup()` run
(with an absolute working directory, an absolute resolved executable
path, and the removal targets of the run — the socket directory and the
two key-file paths — not lying above the other derived directories),
every path-typed field of the final `Context` except `EventSocketPath`
is absolute (`EventSocketPath` is copied verbatim from its flag), and
each of the four directory fields `LogPath`, `SocketPath`, `SSHKeyPath`
and `TargetPath` names a directory that exists in the final filesystem
state. -/
theorem pipeline_absolute_paths_and_dirs (fl : Flags) (o : Oracles) (fs0 : FS)
    (hwd : ∀ wd, o.getwd = .ok wd → isAbs wd = true)
    (hexeabs : ∀ q0 q, o.executable = .ok q0 → o.evalSymlinks q0 = .ok q →
      isAbs q = true)
    (hdisj : ∀ sp lp p, goAbs o.getwd fl.socketPath = .ok sp →
      goAbs o.getwd fl.logPath = .ok lp →
      goAbs o.getwd fl.sshKeyPath = .ok p →
      isUnder sp lp = false ∧
      isUnder (pathJoin p fl.name) lp = false ∧
      isUnder (pathJoin p (fl.name ++ ".pub")) lp = false ∧
      isUnder (pathJoin p fl.name) sp = false ∧
      isUnder (pathJoin p (fl.name ++ ".pub")) sp = false ∧
      isUnder (pathJoin p fl.name) p = false ∧
      isUnder (pathJoin p (fl.name ++ ".pub")) p = false)
    (h1 : (runPipeline fl o fs0).1.res = none)
    (h2 : (runPipeline fl o fs0).2.res = none) :
    (isAbs (runPipeline fl o fs0).2.ctx.LockFile = true ∧
     isAbs (runPipeline fl o fs0).2.ctx.ExecutablePath = true ∧
     isAbs (runPipeline fl o fs0).2.ctx.LogPath = true ∧
     isAbs (runPipeline fl o fs0).2.ctx.SocketPath = true ∧
     isAbs (runPipeline fl o fs0).2.ctx.ForwardSocketPath = true ∧
     isAbs (runPipeline fl o fs0).2.ctx.SocketNetworkPath = true ∧
     isAbs (runPipeline fl o fs0).2.ctx.SocketInitrdVSockPath = true ∧
     isAbs (runPipeline fl o fs0).2.ctx.SocketReadyPath = true ∧
     isAbs (runPipeline fl o fs0).2.ctx.RestfulSocketPath = true ∧
     isAbs (runPipeline fl o fs0).2.ctx.TimeSyncSocketPath = true ∧
     isAbs (runPipeline fl o fs0).2.ctx.SSHAuthSocketPath = true ∧
     isAbs (runPipeline fl o fs0).2.ctx.SSHKeyPath = true ∧
     isAbs (runPipeline fl o fs0).2.ctx.SSHPrivateKeyPath = true ∧
     isAbs (runPipeline fl o fs0).2.ctx.SSHPublicKeyPath = true ∧
     isAbs (runPipeline fl o fs0).2.ctx.TargetPath = true ∧
     isAbs (runPipeline fl o fs0).2.ctx.VersionsPath = true ∧
     isAbs (runPipeline fl o fs0).2.ctx.KernelPath = true ∧
     isAbs (runPipeline fl o fs0).2.ctx.InitrdPath = true ∧
     isAbs (runPipeline fl o fs0).2.ctx.RootfsPath = true ∧
     isAbs (runPipeline fl o fs0).2.ctx.DiskDataPath = true ∧
     isAbs (runPipeline fl o fs0).2.ctx.DiskTmpPath = true) ∧
    ((runPipeline fl o fs0).2.st.fs.dirs.contains
        (runPipeline fl o fs0).2.ctx.LogPath = true ∧
     (runPipeline fl o fs0).2.st.fs.dirs.contains
        (runPipeline fl o fs0).2.ctx.SocketPath = true ∧
     (runPipeline fl o fs0).2.st.fs.dirs.contains
        (runPipeline fl o fs0).2.ctx.SSHKeyPath = true ∧
     (runPipeline fl o fs0).2.st.fs.dirs.contains
        (runPipeline fl o fs0).2.ctx.TargetPath = true) := by
  -- phase 1: decompose PreSetup
  have hps0 : (preSetup fl o {} ⟨fs0, []⟩).res = none := h1
  have hrw : (preSetup fl o {} ⟨fs0, []⟩).res
      = firstErr (basic fl o {} ⟨fs0, []⟩).res
          (logPath fl o (basic fl o {} ⟨fs0, []⟩).ctx
            (basic fl o {} ⟨fs0, []⟩).st).res := rfl
  rw [hrw, firstErr_eq_none] at hps0
  obtain ⟨hbres, hlres⟩ := hps0
  obtain ⟨q0, q, hexe, hsym, hmkt, hbe⟩ := basic_success fl o {} ⟨fs0, []⟩ hbres
  rw [hbe] at hlres
  dsimp only at hlres
  obtain ⟨lp, hlabs, hlmk, hle⟩ := logPath_success fl o _ _ hlres
  have hps : preSetup fl o {} ⟨fs0, []⟩ =
      ⟨none,
       { ({} : Context) with
         Name := fl.name, CPUS := fl.cpus,
         MemoryBytes := (fl.memory * 1024 * 1024) % 18446744073709551616,
         IsCliMode := fl.cliMode, BindPID := fl.bindPID,
         EventSocketPath := fl.eventSocketPath,
         PowerSaveMode := fl.powerSaveMode, KernelDebug := fl.kernelDebug,
         ExecutablePath := goToLower q,
         LockFile := "/tmp/ovm/" ++ md5HexOfString (goToLower q) ++ "-" ++
           fl.name ++ ".pid",
         LogPath := lp },
       ⟨(fs0.addDir "/tmp/ovm").addDir lp,
        [Event.mkdirAll "/tmp/ovm", Event.mkdirAll lp]⟩⟩ := by
    unfold preSetup
    dsimp only
    rw [hbe]
    dsimp only
    rw [hle]
    rfl
  -- phase 2: decompose Setup
  have h2a : (setup fl o (preSetup fl o {} ⟨fs0, []⟩).ctx
      (preSetup fl o {} ⟨fs0, []⟩).st).res = none := h2
  rw [hps] at h2a
  dsimp only at h2a
  rw [setup_res_decomp, firstErr_eq_none] at h2a
  obtain ⟨hsoc, h2b⟩ := h2a
  rw [firstErr_eq_none] at h2b
  obtain ⟨hsshr, h2c⟩ := h2b
  rw [firstErr_eq_none] at h2c
  obtain ⟨hportr, htgtr⟩ := h2c
  obtain ⟨sp, hsabs, hsrm, hsmk, hse⟩ := socketPath_success fl o _ _ hsoc
  rw [hse] at hsshr hportr htgtr
  dsimp only at hsshr hportr htgtr
  obtain ⟨p, pk, sst, hpabs, hsshe, hpresA, hpresB⟩ := ssh_success_c1 fl o _ _ hsshr
  rw [hsshe] at hportr htgtr
  dsimp only at hportr htgtr
  obtain ⟨port, hportok, hporte⟩ := sshPort_success fl o _ _ hportr
  rw [hporte] at htgtr
  dsimp only at htgtr
  obtain ⟨tp, sstT, htabs, htgte, htpresA, htpresB⟩ := target_success fl o _ _ htgtr
  -- the final step value
  have hfin : (runPipeline fl o fs0).2 =
      ⟨none,
       { ({} : Context) with
         Name := fl.name, CPUS := fl.cpus,
         MemoryBytes := (fl.memory * 1024 * 1024) % 18446744073709551616,
         IsCliMode := fl.cliMode, BindPID := fl.bindPID,
         EventSocketPath := fl.eventSocketPath,
         PowerSaveMode := fl.powerSaveMode, KernelDebug := fl.kernelDebug,
         ExecutablePath := goToLower q,
         LockFile := "/tmp/ovm/" ++ md5HexOfString (goToLower q) ++ "-" ++
           fl.name ++ ".pid",
         LogPath := lp,
         SocketPath := sp,
         ForwardSocketPath := pathJoin sp (fl.name ++ "-podman.sock"),
         SocketNetworkPath := pathJoin sp (fl.name ++ "-vfkit-network.sock"),
         SocketInitrdVSockPath := pathJoin sp (fl.name ++ "-initrd-vsock.sock"),
         SocketReadyPath := pathJoin sp (fl.name ++ "-ready.sock"),
         RestfulSocketPath := pathJoin sp (fl.name ++ "-restful.sock"),
         TimeSyncSocketPath := pathJoin sp (fl.name ++ "-sync-time.sock"),
         SSHAuthSocketPath := pathJoin sp (fl.name ++ "-ssh-auth.sock"),
         Endpoint := "unix://" ++ pathJoin sp (fl.name ++ "-vfkit-network.sock"),
         SSHKeyPath := p,
         SSHPrivateKeyPath := pathJoin p fl.name,
         SSHPublicKeyPath := pathJoin p (fl.name ++ ".pub"),
         SSHPublicKey := pk,
         SSHPort := port,
         TargetPath := tp,
         VersionsPath := pathJoin tp "versions.json",
         KernelPath := pathJoin tp (base fl.kernelPath),
         InitrdPath := pathJoin tp (base fl.initrdPath),
         RootfsPath := pathJoin tp (base fl.rootfsPath),
         DiskDataPath := pathJoin tp "data.img",
         DiskTmpPath := pathJoin tp "tmp.img" },
       sstT⟩ := by
    have e0 : (runPipeline fl o fs0).2 =
        setup fl o (preSetup fl o {} ⟨fs0, []⟩).ctx
          (preSetup fl o {} ⟨fs0, []⟩).st := rfl
    rw [e0, hps]
    dsimp only
    unfold setup
    dsimp only
    rw [hse]
    dsimp only
    rw [hsshe]
    dsimp only
    rw [hporte]
    dsimp only
    rw [htgte]
    rfl
  -- disjointness facts
  obtain ⟨hd1, hd2, hd3, hd4, hd5, hd6, hd7⟩ := hdisj sp lp p hsabs hlabs hpabs
  -- directory existence chain
  have hlp1 : ((fs0.addDir "/tmp/ovm").addDir lp).dirs.contains lp = true :=
    addDir_contains_self _ lp
  have hlp2 : ((((fs0.addDir "/tmp/ovm").addDir lp).removeTree sp).addDir sp).dirs.contains lp = true :=
    addDir_contains_mono _ sp lp (removeTree_contains _ sp lp hd1 hlp1)
  have hlp3 : sst.fs.dirs.contains lp = true := hpresA lp hlp2 hd2 hd3
  have hlp4 : sstT.fs.dirs.contains lp = true := htpresA lp hlp3
  have hsp1 : ((((fs0.addDir "/tmp/ovm").addDir lp).removeTree sp).addDir sp).dirs.contains sp = true :=
    addDir_contains_self _ sp
  have hsp2 : sst.fs.dirs.contains sp = true := hpresA sp hsp1 hd4 hd5
  have hsp3 : sstT.fs.dirs.contains sp = true := htpresA sp hsp2
  have hp1 : sst.fs.dirs.contains p = true := hpresB hd6 hd7
  have hp2 : sstT.fs.dirs.contains p = true := htpresA p hp1
  have htp1 : sstT.fs.dirs.contains tp = true := htpresB
  -- absoluteness facts
  have hlpabs : isAbs lp = true := goAbs_isAbs o.getwd fl.logPath lp hwd hlabs
  have hspabs : isAbs sp = true := goAbs_isAbs o.getwd fl.socketPath sp hwd hsabs
  have hppabs : isAbs p = true := goAbs_isAbs o.getwd fl.sshKeyPath p hwd hpabs
  have htpabs : isAbs tp = true := goAbs_isAbs o.getwd fl.targetPath tp hwd htabs
  have hqabs : isAbs (goToLower q) = true :=
    isAbs_goToLower_of q (hexeabs q0 q hexe hsym)
  rw [hfin]
  refine ⟨⟨?_, ?_, ?_, ?_, ?_, ?_, ?_, ?_, ?_, ?_, ?_, ?_, ?_, ?_, ?_, ?_, ?_,
    ?_, ?_, ?_, ?_⟩, ?_, ?_, ?_, ?_⟩
  · exact isAbs_of_append _ _ (isAbs_of_append _ _ (isAbs_of_append _ _
      (isAbs_of_append _ _ (by rfl))))
  · exact hqabs
  · exact hlpabs
  · exact hspabs
  · exact isAbs_pathJoin sp _ hspabs
  · exact isAbs_pathJoin sp _ hspabs
  · exact isAbs_pathJoin sp _ hspabs
  · exact isAbs_pathJoin sp _ hspabs
  · exact isAbs_pathJoin sp _ hspabs
  · exact isAbs_pathJoin sp _ hspabs
  · exact isAbs_pathJoin sp _ hspabs
  · exact hppabs
  · exact isAbs_pathJoin p _ hppabs
  · exact isAbs_pathJoin p _ hppabs
  · exact htpabs
  · exact isAbs_pathJoin tp _ htpabs
  · exact isAbs_pathJoin tp _ htpabs
  · exact isAbs_pathJoin tp _ htpabs
  · exact isAbs_pathJoin tp _ htpabs
  · exact isAbs_pathJoin tp _ htpabs
  · exact isAbs_pathJoin tp _ htpabs
  · exact hlp4
  · exact hsp3
  · exact hp2
  · exact htp1

set_option maxRecDepth 1000000 in
/-- **C1 witness.** A concrete successful run on well-separated absolute
directories: the lock file is absolute and the log directory exists
afterwards. -/
theorem pipeline_absolute_witness :
    ((runPipeline wFlags wOracles ⟨[], []⟩).1.res = none ∧
     (runPipeline wFlags wOracles ⟨[], []⟩).2.res = none) ∧
    isAbs (runPipeline wFlags wOracles ⟨[], []⟩).2.ctx.LockFile = true ∧
    (runPipeline wFlags wOracles ⟨[], []⟩).2.st.fs.dirs.contains
      (runPipeline wFlags wOracles ⟨[], []⟩).2.ctx.LogPath = true := by
  have hwd : ∀ wd, wOracles.getwd = .ok wd → isAbs wd = true := by
    intro wd h
    cases h
    rfl
  have hexe : ∀ q0 q, wOracles.executable = .ok q0 →
      wOracles.evalSymlinks q0 = .ok q → isAbs q = true := by
    intro q0 q h1 h2
    injection h1 with e1
    subst e1
    have h2b : Except.ok (ε := GoError) "/usr/bin/OVM" = Except.ok q := h2
    injection h2b with e2
    subst e2
    rfl
  have hdisj : ∀ sp lp p, goAbs wOracles.getwd wFlags.socketPath = .ok sp →
      goAbs wOracles.getwd wFlags.logPath = .ok lp →
      goAbs wOracles.getwd wFlags.sshKeyPath = .ok p →
      isUnder sp lp = false ∧
      isUnder (pathJoin p wFlags.name) lp = false ∧
      isUnder (pathJoin p (wFlags.name ++ ".pub")) lp = false ∧
      isUnder (pathJoin p wFlags.name) sp = false ∧
      isUnder (pathJoin p (wFlags.name ++ ".pub")) sp = false ∧
      isUnder (pathJoin p wFlags.name) p = false ∧
      isUnder (pathJoin p (wFlags.name ++ ".pub")) p = false := by
    intro sp lp p h1 h2 h3
    have h1b : Except.ok (ε := GoError) "/run/sock" = Except.ok sp := h1
    have h2b : Except.ok (ε := GoError) "/var/log/ovm" = Except.ok lp := h2
    have h3b : Except.ok (ε := GoError) "/home/u/.ovm/ssh" = Except.ok p := h3
    injection h1b with e1
    injection h2b with e2
    injection h3b with e3
    subst e1
    subst e2
    subst e3
    exact ⟨by decide, by decide, by decide, by decide, by decide, by decide,
      by decide⟩
  have happ := pipeline_absolute_paths_and_dirs wFlags wOracles ⟨[], []⟩
    hwd hexe hdisj (by decide) (by decide)
  exact ⟨⟨by decide, by decide⟩, happ.1.1, happ.2.1⟩

set_option maxRecDepth 1000000 in
/-- **C1 counterexample.** A fully successful `PreSetup()`/`Setup()` run
in which `EventSocketPath` is not an absolute path: the field is copied
verbatim from the `eventSocketPath` flag (here the relative
`"event.sock"`), so not every path-typed field of the Context is
absolute. -/
theorem pipeline_event_socket_relative_cex :
    (runPipeline wFlags wOracles ⟨[], []⟩).1.res = none ∧
    (runPipeline wFlags wOracles ⟨[], []⟩).2.res = none ∧
    (runPipeline wFlags wOracles ⟨[], []⟩).2.ctx.EventSocketPath = "event.sock" ∧
    isAbs (runPipeline wFlags wOracles ⟨[], []⟩).2.ctx.EventSocketPath = false :=
  ⟨by decide, by decide, by decide, by decide⟩

end Ovm
